import Mathlib

set_option maxRecDepth 8000

/-!
Shallow embedding of the magic_tagger repository (identity minting in
rdf/kg_helpers.py, graph building in rdf/build_kg.py, decision scoring in
src/scoring.py and src/config.py, the classification service in
src/service.py, the provenance export in src/export_jsonld.py and
src/model_store.py, and the coverage analyzer in
rdf/quality/kg_quality_log.py), together with theorems settling the
specification claims against this embedding.

Strings are modelled by Lean String / List Char; Python floats by Rat;
Python exceptions by Except; dictionaries by structures or association
lists.  Character-level operations (str.upper, str.strip, regular
expression character classes) are modelled on the ASCII range, which
covers every input exercised by the claims.
-/

/-- Python whitespace test, modelling the regex class backslash-s and
str.strip on the ASCII range: space, tab, newline, carriage return,
vertical tab, form feed. -/
def isPySpace (c : Char) : Bool :=
  decide (c.toNat = 32 ∨ c.toNat = 9 ∨ c.toNat = 10 ∨ c.toNat = 13 ∨
          c.toNat = 11 ∨ c.toNat = 12)

/-- A valid code point below the surrogate range yields a Char whose
toNat is that code point. -/
theorem charOfNat_toNat (n : Nat) (h : Nat.isValidChar n) :
    (Char.ofNat n).toNat = n := by
  unfold Char.ofNat
  rw [dif_pos h]
  unfold Char.ofNatAux
  simp [Char.toNat, UInt32.toNat, BitVec.toNat_ofNatLt]

/-- Two characters with equal code points are equal. -/
theorem char_eq_of_toNat_eq {c d : Char} (h : c.toNat = d.toNat) : c = d := by
  cases c with
  | mk cv cp =>
    cases d with
    | mk dv dp =>
      have : cv = dv := UInt32.toNat.inj h
      subst this
      rfl

/-- ASCII uppercasing of one character, modelling Python str.upper on the
ASCII range (non-ASCII characters pass through unchanged; every input
relevant to the verified claims is ASCII). -/
def upChar (c : Char) : Char :=
  if 97 ≤ c.toNat ∧ c.toNat ≤ 122 then Char.ofNat (c.toNat - 32) else c

/-- ASCII lowercasing of one character, modelling Python str.lower on the
ASCII range. -/
def downChar (c : Char) : Char :=
  if 65 ≤ c.toNat ∧ c.toNat ≤ 90 then Char.ofNat (c.toNat + 32) else c

theorem upChar_toNat (c : Char) :
    (upChar c).toNat =
      if 97 ≤ c.toNat ∧ c.toNat ≤ 122 then c.toNat - 32 else c.toNat := by
  unfold upChar
  by_cases h : 97 ≤ c.toNat ∧ c.toNat ≤ 122
  · rw [if_pos h, if_pos h, charOfNat_toNat]
    exact Or.inl (by omega)
  · rw [if_neg h, if_neg h]

theorem isPySpace_upChar (c : Char) : isPySpace (upChar c) = isPySpace c := by
  simp only [isPySpace]
  rw [decide_eq_decide]
  rw [upChar_toNat]
  by_cases h : 97 ≤ c.toNat ∧ c.toNat ≤ 122
  · rw [if_pos h]; omega
  · rw [if_neg h]

theorem upChar_upChar (c : Char) : upChar (upChar c) = upChar c := by
  apply char_eq_of_toNat_eq
  rw [upChar_toNat (upChar c), upChar_toNat c]
  by_cases h : 97 ≤ c.toNat ∧ c.toNat ≤ 122
  · rw [if_pos h, if_neg (by omega : ¬(97 ≤ c.toNat - 32 ∧ c.toNat - 32 ≤ 122))]
  · rw [if_neg h, if_neg h]

theorem upChar_star_iff (c : Char) : upChar c = '*' ↔ c = '*' := by
  constructor
  · intro h
    have ht : (upChar c).toNat = 42 := by rw [h]; rfl
    rw [upChar_toNat] at ht
    by_cases hr : 97 ≤ c.toNat ∧ c.toNat ≤ 122
    · rw [if_pos hr] at ht; omega
    · rw [if_neg hr] at ht
      exact char_eq_of_toNat_eq ht
  · intro h
    subst h
    rfl

/-- Strip leading and trailing Python whitespace from a character list
(modelling str.strip with no argument). -/
def pyStripL (l : List Char) : List Char :=
  ((l.dropWhile isPySpace).reverse.dropWhile isPySpace).reverse

/-- str.strip on strings. -/
def pyStrip (s : String) : String := String.mk (pyStripL s.toList)

/-- Remove every Python-whitespace character (the regex substitution of
backslash-s-plus by the empty string in normalize_code). -/
def removeAllWs (l : List Char) : List Char := l.filter (fun c => !isPySpace c)

/-- Map str.upper over a character list. -/
def upperL (l : List Char) : List Char := l.map upChar

/-- Replace each asterisk by the five characters "-star" (str.replace in
normalize_code under the hyphen policy). -/
def starReplace (l : List Char) : List Char :=
  l.flatMap (fun c => if c = '*' then ['-', 's', 't', 'a', 'r'] else [c])

/-- One character of the anchored regex class for safe ATU codes,
[A-Z0-9-]. -/
def atuOkChar (c : Char) : Bool :=
  decide ((65 ≤ c.toNat ∧ c.toNat ≤ 90) ∨ (48 ≤ c.toNat ∧ c.toNat ≤ 57) ∨
          c.toNat = 45)

/-- Full-match test for the anchored regex of safe ATU codes,
matching normalize_code's ATU-OK pattern. -/
def atuOk (l : List Char) : Bool := !l.isEmpty && l.all atuOkChar

/-- Characters urllib.parse.quote never encodes given the safe set used by
encode-path-segment in kg_helpers.py: ASCII letters, digits, hyphen, dot,
underscore, tilde. -/
def safeChar (c : Char) : Bool :=
  decide ((65 ≤ c.toNat ∧ c.toNat ≤ 90) ∨ (97 ≤ c.toNat ∧ c.toNat ≤ 122) ∨
          (48 ≤ c.toNat ∧ c.toNat ≤ 57) ∨ c.toNat = 45 ∨ c.toNat = 46 ∨
          c.toNat = 95 ∨ c.toNat = 126)

/-- Uppercase hexadecimal digit, as produced by urllib percent-encoding. -/
def hexDigit (n : Nat) : Char :=
  if n < 10 then Char.ofNat (48 + n) else Char.ofNat (55 + n)

/-- UTF-8 encoding of one code point as a byte list (urllib quote encodes
the UTF-8 bytes of non-safe characters). -/
def utf8Bytes (n : Nat) : List Nat :=
  if n < 128 then [n]
  else if n < 2048 then [192 + n / 64, 128 + n % 64]
  else if n < 65536 then [224 + n / 4096, 128 + (n / 64) % 64, 128 + n % 64]
  else [240 + n / 262144, 128 + (n / 4096) % 64, 128 + (n / 64) % 64,
        128 + n % 64]

/-- Percent-escape of one byte. -/
def pctByte (b : Nat) : List Char := ['%', hexDigit (b / 16), hexDigit (b % 16)]

/-- Percent-encoding of one character under the kg_helpers safe set. -/
def encodeChar (c : Char) : List Char :=
  if safeChar c then [c] else (utf8Bytes c.toNat).flatMap pctByte

/-- Percent-encoding of a character list. -/
def encodeSegL (l : List Char) : List Char := l.flatMap encodeChar

/-- kg_helpers.encode-path-segment: percent-encode a single path segment,
keeping RFC3986 unreserved characters. -/
def encode_path_segment (s : String) : String := String.mk (encodeSegL s.toList)

/-- kg_helpers BASE namespace for minted IRIs. -/
def kgBASE : String := "https://github.com/eugeniavd/magic_tagger/rdf/"

/-- kg_helpers ensure-str: reject a missing value, then strip and reject
an empty result; otherwise return the stripped string.  Raising ValueError
is modelled by Except.error carrying the message. -/
def ensure_str (x : Option String) (field : String) : Except String String :=
  match x with
  | none => Except.error (field ++ " must not be None")
  | some v =>
    let s := pyStrip v
    if s = "" then Except.error (field ++ " must not be empty") else Except.ok s

/-- Strip leading and trailing slash characters (str.strip with a slash
argument, used by path-join). -/
def stripSlashes (l : List Char) : List Char :=
  ((l.dropWhile (fun c => c = '/')).reverse.dropWhile (fun c => c = '/')).reverse

/-- Segment cleaning of path-join: strip surrounding slashes and drop the
segment when nothing is left. -/
def pjClean (p : String) : Option (List Char) :=
  let q := stripSlashes p.toList
  if q = [] then none else some q

/-- kg_helpers path-join: join path segments onto the base namespace
without introducing double slashes, dropping segments that are empty after
removing surrounding slashes. -/
def path_join (parts : List String) : String :=
  String.mk (kgBASE.toList ++ List.intercalate ['/'] (parts.filterMap pjClean))

/-- Final step of kg_helpers.normalize_code: return the candidate directly
if it matches the safe ATU pattern and percent-encode it otherwise. -/
def normTail (s2 : List Char) : Except String String :=
  if atuOk s2 then Except.ok (String.mk s2)
  else Except.ok (encode_path_segment (String.mk s2))

/-- Body of kg_helpers.normalize_code after the ensure-str check: delete
inner whitespace, uppercase, apply the star policy (hyphen: star becomes
"-star"; percent: leave the star for percent-encoding; otherwise raise),
then finish with normTail. -/
def normCore (l : List Char) (star_policy : String) : Except String String :=
  let s1 := upperL (removeAllWs l)
  if s1.any (fun c => c == '*') then
    if star_policy = "hyphen" then normTail (starReplace s1)
    else if star_policy = "percent" then normTail s1
    else Except.error "star_policy must be hyphen or percent"
  else normTail s1

/-- kg_helpers.normalize_code: strip and reject empty input, then run the
normalization body. -/
def normalize_code (code : Option String) (star_policy : String) :
    Except String String := do
  let s0 ← ensure_str code "code"
  normCore s0.toList star_policy

/-- kg_helpers.iri_tale. -/
def iri_tale (tale_id : Option String) : Except String String := do
  let tid ← ensure_str tale_id "tale_id"
  Except.ok (path_join ["tale", encode_path_segment tid])

/-- kg_helpers.iri_volume. -/
def iri_volume (volume_id : Option String) : Except String String := do
  let vid ← ensure_str volume_id "volume_id"
  Except.ok (path_join ["volume", encode_path_segment vid])

/-- kg_helpers.iri_person. -/
def iri_person (person_id_or_slug : Option String) : Except String String := do
  let pid ← ensure_str person_id_or_slug "person_id_or_slug"
  Except.ok (path_join ["person", encode_path_segment pid])

/-- kg_helpers.iri_place. -/
def iri_place (place_id_or_slug : Option String) : Except String String := do
  let pl ← ensure_str place_id_or_slug "place_id_or_slug"
  Except.ok (path_join ["place", encode_path_segment pl])

/-- kg_helpers.iri_atu: normalize the code and mint the concept IRI. -/
def iri_atu (code : Option String) (star_policy : String) :
    Except String String := do
  let norm ← normalize_code code star_policy
  Except.ok (path_join ["taleType", "atu", norm])

/-- Final path segment of an IRI: the characters after the last slash. -/
def finalPathSegment (s : String) : String :=
  String.mk ((s.toList.reverse.takeWhile (fun c => c ≠ '/')).reverse)

example : normalize_code (some "510A") "hyphen" = Except.ok "510A" := rfl
example : normalize_code (some "480a") "hyphen" = Except.ok "480A" := rfl
example : normalize_code (some "1060*") "hyphen" = Except.ok "1060-star" := rfl
example : normalize_code (some "1060-star") "hyphen" = Except.ok "1060-STAR" :=
  rfl
example : normalize_code (some "1060*") "percent" = Except.ok "1060%2A" := rfl
example : iri_tale (some "era_vene_12_440_19") =
    Except.ok "https://github.com/eugeniavd/magic_tagger/rdf/tale/era_vene_12_440_19" :=
  rfl

/-- Rebuilding a string from its character list is the identity. -/
theorem string_mk_toList (s : String) : String.mk s.toList = s := by
  cases s
  rfl

/-- The character list of a rebuilt string is the original list. -/
theorem toList_string_mk (l : List Char) : (String.mk l).toList = l := rfl

/-- A rebuilt string is empty exactly when the list is empty. -/
theorem string_mk_eq_empty_iff (l : List Char) : String.mk l = "" ↔ l = [] := by
  constructor
  · intro h
    have h2 := congrArg String.toList h
    simpa using h2
  · intro h
    subst h
    rfl

/-- Mapping a pointwise-identity function over a list is the identity. -/
theorem list_map_id_of {f : Char → Char} {l : List Char}
    (h : ∀ x ∈ l, f x = x) : l.map f = l := by
  induction l with
  | nil => rfl
  | cons a as ih =>
    simp only [List.map_cons]
    rw [h a (List.mem_cons_self a as), ih (fun x hx => h x (List.mem_cons_of_mem a hx))]

/-- dropWhile is the identity when the predicate is false on every
element. -/
theorem dropWhile_eq_self_of_all {p : Char → Bool} {l : List Char}
    (h : ∀ c ∈ l, p c = false) : l.dropWhile p = l := by
  cases l with
  | nil => rfl
  | cons a as =>
    rw [List.dropWhile_cons, if_neg]
    simp [h a (List.mem_cons_self a as)]

/-- Stripping commutes with ASCII uppercasing. -/
theorem pyStripL_upper (l : List Char) :
    pyStripL (upperL l) = upperL (pyStripL l) := by
  unfold pyStripL upperL
  have hp : (isPySpace ∘ upChar) = isPySpace := funext isPySpace_upChar
  rw [List.dropWhile_map, hp, ← List.map_reverse, List.dropWhile_map, hp,
    ← List.map_reverse]

/-- Whitespace removal commutes with ASCII uppercasing. -/
theorem removeAllWs_upper (l : List Char) :
    removeAllWs (upperL l) = upperL (removeAllWs l) := by
  unfold removeAllWs upperL
  have hp : ((fun c => !isPySpace c) ∘ upChar) = (fun c => !isPySpace c) := by
    funext c
    simp [Function.comp, isPySpace_upChar]
  rw [List.filter_map, hp]

/-- Uppercasing is idempotent on character lists. -/
theorem upperL_upperL (l : List Char) : upperL (upperL l) = upperL l := by
  unfold upperL
  rw [List.map_map]
  exact List.map_congr_left (fun x _ => upChar_upChar x)

/-- The normalization body is invariant under pre-uppercasing its input. -/
theorem normCore_upper (l : List Char) (p : String) :
    normCore (upperL l) p = normCore l p := by
  have h : upperL (removeAllWs (upperL l)) = upperL (removeAllWs l) := by
    rw [removeAllWs_upper, upperL_upperL]
  simp only [normCore, h]

/-- Definitional reduction of normalize_code on a present value. -/
theorem normalize_code_some (v p : String) :
    normalize_code (some v) p =
      (if pyStrip v = "" then
        Except.error ("code" ++ " must not be empty")
      else Except.ok (pyStrip v)) >>= (fun s0 => normCore s0.toList p) := rfl

/-- normalize_code is case-insensitive: a spelling and its ASCII-uppercased
spelling mint the same result under any star policy. -/
theorem normalize_code_upper (s p : String) :
    normalize_code (some (String.mk (upperL s.toList))) p =
      normalize_code (some s) p := by
  have hstrip : pyStrip (String.mk (upperL s.toList)) =
      String.mk (upperL (pyStripL s.toList)) := by
    unfold pyStrip
    rw [toList_string_mk, pyStripL_upper]
  rw [normalize_code_some, normalize_code_some, hstrip]
  by_cases hE : pyStripL s.toList = []
  · have e1 : String.mk (upperL (pyStripL s.toList)) = "" := by
      rw [hE]
      rfl
    have e2 : pyStrip s = "" := by
      unfold pyStrip
      rw [hE]
    rw [e1, e2]
  · have h1 : String.mk (upperL (pyStripL s.toList)) ≠ "" := by
      intro hc
      exact hE (List.map_eq_nil_iff.mp ((string_mk_eq_empty_iff _).mp hc))
    have h2 : pyStrip s ≠ "" := by
      intro hc
      unfold pyStrip at hc
      exact hE ((string_mk_eq_empty_iff _).mp hc)
    rw [if_neg h1, if_neg h2]
    exact normCore_upper (pyStripL s.toList) p

theorem atuOkChar_not_space {c : Char} (h : atuOkChar c = true) :
    isPySpace c = false := by
  simp only [atuOkChar, decide_eq_true_eq] at h
  simp only [isPySpace, decide_eq_false_iff_not]
  omega

theorem atuOkChar_upChar {c : Char} (h : atuOkChar c = true) : upChar c = c := by
  simp only [atuOkChar, decide_eq_true_eq] at h
  unfold upChar
  rw [if_neg (by omega)]

/-- Stripping is the identity on whitespace-free lists. -/
theorem pyStripL_eq_self {l : List Char} (h : ∀ c ∈ l, isPySpace c = false) :
    pyStripL l = l := by
  unfold pyStripL
  rw [dropWhile_eq_self_of_all h,
    dropWhile_eq_self_of_all (fun c hc => h c (List.mem_reverse.mp hc)),
    List.reverse_reverse]

/-- Strings already matching the safe ATU pattern are fixed points of
normalize_code. -/
theorem normalize_code_fixed (r : String) (h : atuOk r.toList = true) :
    normalize_code (some r) "hyphen" = Except.ok r := by
  rw [atuOk, Bool.and_eq_true] at h
  obtain ⟨h1, h2⟩ := h
  have hall : ∀ c ∈ r.toList, atuOkChar c = true := List.all_eq_true.mp h2
  have hne : r.toList ≠ [] := by
    intro hc
    rw [hc] at h1
    simp at h1
  have hs : ∀ c ∈ r.toList, isPySpace c = false :=
    fun c hc => atuOkChar_not_space (hall c hc)
  have hstrip : pyStrip r = r := by
    unfold pyStrip
    rw [pyStripL_eq_self hs, string_mk_toList]
  have hner : r ≠ "" := by
    intro hc
    apply hne
    rw [hc]
    rfl
  have hfilter : removeAllWs r.toList = r.toList :=
    List.filter_eq_self.mpr (fun c hc => by simp [hs c hc])
  have hupper : upperL r.toList = r.toList :=
    list_map_id_of (fun c hc => atuOkChar_upChar (hall c hc))
  have hstar : r.toList.any (fun c => c == '*') = false := by
    rw [List.any_eq_false]
    intro c hc
    have hok := hall c hc
    simp only [atuOkChar, decide_eq_true_eq] at hok
    simp only [beq_iff_eq]
    intro hcs
    subst hcs
    revert hok
    decide
  have hA : atuOk r.toList = true := by
    rw [atuOk, Bool.and_eq_true]
    exact ⟨h1, h2⟩
  rw [normalize_code_some, hstrip, if_neg hner]
  show normCore r.toList "hyphen" = Except.ok r
  have hs1 : upperL (removeAllWs r.toList) = r.toList := by
    rw [hfilter, hupper]
  simp only [normCore, hs1]
  rw [hstar]
  simp only [Bool.false_eq_true, if_false]
  unfold normTail
  rw [if_pos hA, string_mk_toList]

/-- Claim C1 counterexample: normalize_code is not idempotent on its own
output.  normalize_code maps "1060*" to "1060-star", but applied to
"1060-star" it uppercases first and yields "1060-STAR", a different
string. -/
theorem C1_counterexample :
    normalize_code (some "1060*") "hyphen" = Except.ok "1060-star" ∧
    normalize_code (some "1060-star") "hyphen" = Except.ok "1060-STAR" ∧
    ("1060-STAR" : String) ≠ "1060-star" :=
  ⟨rfl, rfl, by decide⟩

/-- Claim C1 (amended): normalize_code is deterministic and total on
accepted inputs; spellings that differ only in ASCII letter case mint the
same identifier under any star policy ("480a" and "480A" both mint
"480A"); "1060*" mints "1060-star" under the hyphen star policy; and any
string already matching the safe ATU pattern (uppercase letters, digits,
hyphens) is a fixed point of normalize_code.  Idempotence fails only for
outputs that leave the safe pattern, such as the lowercase "-star"
substitution recorded in the counterexample. -/
theorem C1_theorem :
    (∀ s p : String,
        normalize_code (some (String.mk (upperL s.toList))) p =
          normalize_code (some s) p) ∧
    (∀ r : String, atuOk r.toList = true →
        normalize_code (some r) "hyphen" = Except.ok r) ∧
    normalize_code (some "480a") "hyphen" = Except.ok "480A" ∧
    normalize_code (some "480A") "hyphen" = Except.ok "480A" ∧
    normalize_code (some "1060*") "hyphen" = Except.ok "1060-star" :=
  ⟨normalize_code_upper, normalize_code_fixed, rfl, rfl, rfl⟩

/-- Witness for C1_theorem at the concrete code "510A". -/
theorem C1_witness :
    atuOk (String.toList "510A") = true ∧
    normalize_code (some "510A") "hyphen" = Except.ok "510A" :=
  ⟨by decide, C1_theorem.2.1 "510A" (by decide)⟩

/-- ASCII digit test. -/
def isDigitCh (c : Char) : Bool := decide (48 ≤ c.toNat ∧ c.toNat ≤ 57)

/-- Map str.lower over a string (ASCII range). -/
def pyLower (s : String) : String := String.mk (s.toList.map downChar)

/-- Collapse every maximal run of characters satisfying p into the single
replacement character r (regex run substitution). -/
def collapseRuns (p : Char → Bool) (r : Char) : List Char → List Char
  | [] => []
  | [c] => if p c then [r] else [c]
  | c :: d :: rest =>
    if p c then
      if p d then collapseRuns p r (d :: rest)
      else r :: collapseRuns p r (d :: rest)
    else c :: collapseRuns p r (d :: rest)

/-- build_kg.clean_ws: None becomes the empty string; otherwise collapse
whitespace runs to single spaces and strip the ends. -/
def clean_ws (x : Option String) : String :=
  match x with
  | none => ""
  | some s => String.mk (pyStripL (collapseRuns isPySpace ' ' s.toList))

/-- Missing-value sentinels recognised by build_kg (lowercased cell
values treated as absent). -/
def naSentinel (s : String) : Bool :=
  pyLower s = "<na>" || pyLower s = "na" || pyLower s = "nan" ||
    pyLower s = "none"

/-- Single-quote character. -/
def sqC : Char := Char.ofNat 39

/-- Double-quote character. -/
def dqC : Char := Char.ofNat 34

/-- Backslash character. -/
def bslC : Char := Char.ofNat 92

/-- Drop leading Python whitespace. -/
def skipWs (l : List Char) : List Char := l.dropWhile isPySpace

/-- Parse one literal item: a quoted string (single or double quotes,
escape-free) or an unsigned integer literal.  Models the item forms that
both json.loads and ast.literal_eval accept inside the list cells of this
corpus. -/
def parseItem : List Char → Option (String × List Char)
  | [] => none
  | c :: rest =>
    if c = sqC ∨ c = dqC then
      let content := rest.takeWhile (fun d => d ≠ c)
      let rest2 := rest.dropWhile (fun d => d ≠ c)
      match rest2 with
      | [] => none
      | _ :: rest3 =>
        if content.any (fun d => d = bslC) then none
        else some (String.mk content, rest3)
    else if isDigitCh c then
      some (String.mk ((c :: rest).takeWhile isDigitCh),
            (c :: rest).dropWhile isDigitCh)
    else none

/-- Parse the items of a bracketed list after the opening bracket,
returning the items and the remainder after the closing bracket.  A
trailing comma is accepted (ast.literal_eval accepts it where json.loads
does not, and ast runs second). -/
def parseItemsAux : Nat → List Char → Option (List String × List Char)
  | 0, _ => none
  | fuel + 1, l =>
    match skipWs l with
    | [] => none
    | c :: rest =>
      if c = ']' then some ([], rest)
      else
        match parseItem (c :: rest) with
        | none => none
        | some (item, r1) =>
          match skipWs r1 with
          | [] => none
          | c2 :: r3 =>
            if c2 = ']' then some ([item], r3)
            else if c2 = ',' then
              match parseItemsAux fuel r3 with
              | some (items, r4) => some (item :: items, r4)
              | none => none
            else none

/-- Structured-literal parse of a cell: a bracketed list of quoted strings
or integers yields the item list, a quoted scalar yields a string; every
other shape fails and falls through to delimiter splitting.  This models
the json.loads branch followed by the ast.literal_eval branch of
ensure_list, which agree on the literal shapes appearing in the corpus
cells. -/
def parsePyListLiteral (l : List Char) : Option (Sum (List String) String) :=
  match l with
  | [] => none
  | c :: rest =>
    if c = '[' then
      match parseItemsAux (rest.length + 1) rest with
      | some (items, r) => if skipWs r = [] then some (Sum.inl items) else none
      | none => none
    else if c = sqC ∨ c = dqC then
      match parseItem l with
      | some (v, r) => if skipWs r = [] then some (Sum.inr v) else none
      | none => none
    else none

/-- Delimiter characters of the final ensure_list splitting regex. -/
def isDelim (c : Char) : Bool := c = ';' || c = ',' || c = '|'

/-- Splitter for the regex alternation of one delimiter (semicolon,
comma, pipe) followed by optional whitespace, or a run of two or more
whitespace characters.  The skip flag consumes the whitespace that the
greedy match swallows after a boundary. -/
def splitDelimsGo (skip : Bool) : List Char → List (List Char)
  | [] => [[]]
  | c :: rest =>
    if skip && isPySpace c then splitDelimsGo true rest
    else if isDelim c then [] :: splitDelimsGo true rest
    else if isPySpace c && (match rest with
                             | d :: _ => isPySpace d
                             | [] => false) then
      [] :: splitDelimsGo true rest
    else
      match splitDelimsGo false rest with
      | [] => [[c]]
      | h :: t => (c :: h) :: t

/-- re.split of ensure_list's final fallback. -/
def splitDelims (l : List Char) : List (List Char) := splitDelimsGo false l

/-- build_kg.ensure_list: normalise a cell into an ordered string list.
Cells are pandas string cells (dtype str), so the isinstance-list branch
of the source is unreachable and the Option models a missing value.  The
chain is: clean and sentinel-check, structured-literal parse, then
delimiter splitting. -/
def ensure_list (x : Option String) : List String :=
  match x with
  | none => []
  | some raw =>
    let s := clean_ws (some raw)
    if s = "" then []
    else if naSentinel s then []
    else
      match parsePyListLiteral s.toList with
      | some (Sum.inl items) =>
        (items.map (fun t => clean_ws (some t))).filter (fun t => t ≠ "")
      | some (Sum.inr v) =>
        if clean_ws (some v) = "" then [] else [clean_ws (some v)]
      | none =>
        ((splitDelims s.toList).map
            (fun p => clean_ws (some (String.mk p)))).filter (fun t => t ≠ "")

/-- Characters outside the slug alphabet [a-z0-9-] (the BAD regex of
build_kg). -/
def badChar (c : Char) : Bool :=
  !decide ((97 ≤ c.toNat ∧ c.toNat ≤ 122) ∨ (48 ≤ c.toNat ∧ c.toNat ≤ 57) ∨
           c.toNat = 45)

/-- build_kg.slugify: lowercase, map underscores and spaces to hyphens,
replace runs of non-slug characters by one hyphen, collapse hyphen runs,
strip hyphens, defaulting to "unknown". -/
def slugify (s : String) : String :=
  let s1 := pyLower (clean_ws (some s))
  let s2 := s1.toList.map (fun c => if c = '_' ∨ c = ' ' then '-' else c)
  let s3 := collapseRuns badChar '-' s2
  let s4 := collapseRuns (fun c => c = '-') '-' s3
  let s5 := ((s4.dropWhile (fun c => c = '-')).reverse.dropWhile
      (fun c => c = '-')).reverse
  if s5 = [] then "unknown" else String.mk s5

/-- build_kg.collection_code. -/
def collection_code (raw : String) : String := slugify raw

/-- Shape test for the strict date regex (four digits, hyphen, two digits,
hyphen, two digits). -/
def dateShape (l : List Char) : Bool :=
  match l with
  | [a, b, c, d, h1, e, f, h2, g, i] =>
    isDigitCh a && isDigitCh b && isDigitCh c && isDigitCh d && h1 = '-' &&
      isDigitCh e && isDigitCh f && h2 = '-' && isDigitCh g && isDigitCh i
  | _ => false

/-- build_kg.norm_xsd_date: clean, keep the part before the first space,
return it only when it matches the strict date shape. -/
def norm_xsd_date (x : Option String) : String :=
  let s := clean_ws x
  if s = "" then ""
  else
    let s1 := String.mk (s.toList.takeWhile (fun c => c ≠ ' '))
    if dateShape s1.toList then s1 else ""

/-- RDF node: IRI, literal (with optional language tag and datatype), or
blank node. -/
inductive RNode where
  | uri (s : String)
  | lit (s : String) (lang : Option String) (dt : Option String)
  | bnode (n : Nat)
deriving DecidableEq, Repr

/-- One RDF triple: subject, predicate IRI, object. -/
abbrev RTriple := RNode × String × RNode

/-- rdflib Graph.add has set semantics: adding an existing triple leaves
the graph unchanged.  Insertion order is kept for the rest. -/
def addT (g : List RTriple) (t : RTriple) : List RTriple :=
  if t ∈ g then g else g ++ [t]

def rdf_type : String := "http://www.w3.org/1999/02/22-rdf-syntax-ns#type"
def rdfs_label : String := "http://www.w3.org/2000/01/rdf-schema#label"
def rdfs_seeAlso : String := "http://www.w3.org/2000/01/rdf-schema#seeAlso"
def dct_identifier : String := "http://purl.org/dc/terms/identifier"
def dct_isPartOf : String := "http://purl.org/dc/terms/isPartOf"
def dct_creator : String := "http://purl.org/dc/terms/creator"
def dct_source : String := "http://purl.org/dc/terms/source"
def dct_bibliographicCitation : String :=
  "http://purl.org/dc/terms/bibliographicCitation"
def dct_description : String := "http://purl.org/dc/terms/description"
def dct_accessRights : String := "http://purl.org/dc/terms/accessRights"
def dct_rights : String := "http://purl.org/dc/terms/rights"
def dct_created : String := "http://purl.org/dc/terms/created"
def dct_subject : String := "http://purl.org/dc/terms/subject"
def dct_spatial : String := "http://purl.org/dc/terms/spatial"
def dct_contributor : String := "http://purl.org/dc/terms/contributor"
def foaf_page : String := "http://xmlns.com/foaf/0.1/page"
def xsd_date : String := "http://www.w3.org/2001/XMLSchema#date"
def dct_BibliographicResource : String :=
  "http://purl.org/dc/terms/BibliographicResource"
def dcmitype_Collection : String := "http://purl.org/dc/dcmitype/Collection"
def crm_E33 : String :=
  "http://www.cidoc-crm.org/cidoc-crm/E33_Linguistic_Object"
def crm_E53 : String := "http://www.cidoc-crm.org/cidoc-crm/E53_Place"

/-- build_kg minimal IRI policy: volume. -/
def bk_iri_volume (volume_id : String) : RNode :=
  RNode.uri (kgBASE ++ "volume/" ++ volume_id)

/-- build_kg minimal IRI policy: collection. -/
def bk_iri_collection (collection_code : String) : RNode :=
  RNode.uri (kgBASE ++ "collection/" ++ collection_code)

/-- build_kg minimal IRI policy: person. -/
def bk_iri_person (person_id_or_slug : String) : RNode :=
  RNode.uri (kgBASE ++ "person/" ++ person_id_or_slug)

/-- build_kg minimal IRI policy: tale. -/
def bk_iri_tale (tale_id : String) : RNode :=
  RNode.uri (kgBASE ++ "tale/" ++ tale_id)

/-- build_kg.iri_atu: clean, drop spaces, uppercase; empty input falls
back to the UNKNOWN concept; asterisks become "-star". -/
def bk_iri_atu (code : String) : RNode :=
  let c := upperL ((clean_ws (some code)).toList.filter (fun ch => ch ≠ ' '))
  if c = [] then RNode.uri (kgBASE ++ "taleType/atu/UNKNOWN")
  else RNode.uri (kgBASE ++ "taleType/atu/" ++ String.mk (starReplace c))

/-- One table row: association list from column name to string cell
(pandas reads every cell as a string with dtype str and
keep_default_na False). -/
structure DFRow where
  cells : List (String × String)
deriving DecidableEq, Repr

/-- A loaded table: column list plus rows. -/
structure DF where
  columns : List String
  rows : List DFRow
deriving Repr

/-- Cell access; pandas guarantees a value for every listed column. -/
def getCell (r : DFRow) (c : String) : String := (r.cells.lookup c).getD ""

/-- Apply clean_ws to the named columns of a row (the dataframe map over
tale_id, volume_id, collection in build_graph). -/
def cleanRowCols (cs : List String) (r : DFRow) : DFRow :=
  ⟨r.cells.map (fun kv =>
    if cs.contains kv.1 then (kv.1, clean_ws (some kv.2)) else kv)⟩

/-- drop_duplicates keep=first over a key. -/
def dedupByKeyAux (key : DFRow → String) (seen : List String) :
    List DFRow → List DFRow
  | [] => []
  | r :: rest =>
    if seen.contains (key r) then dedupByKeyAux key seen rest
    else r :: dedupByKeyAux key (key r :: seen) rest

/-- build_kg.collectors_from_row: collector person ids from the row,
taking the ids column first and the string variant only when the first
yields nothing, then cleaning and dropping empties. -/
def collectors_from_row (cols : List String) (row : DFRow) : List String :=
  let person_ids :=
    if cols.contains "collector_person_ids" then
      ensure_list (some (getCell row "collector_person_ids"))
    else []
  let person_ids :=
    if person_ids = [] ∧ cols.contains "collector_person_ids_str" then
      ensure_list (some (getCell row "collector_person_ids_str"))
    else person_ids
  (person_ids.map (fun pid => clean_ws (some pid))).filter (fun p => p ≠ "")

/-- Split a character list on one separator character. -/
def splitOnChar (sep : Char) : List Char → List (List Char)
  | [] => [[]]
  | c :: rest =>
    if c = sep then [] :: splitOnChar sep rest
    else
      match splitOnChar sep rest with
      | [] => [[c]]
      | h :: t => (c :: h) :: t

/-- Match optional whitespace, a digit run, optional whitespace; return
the digits.  This is the third chunk of the volume-label regex. -/
def wsDigitsWs (l : List Char) : Option (List Char) :=
  let l1 := l.dropWhile isPySpace
  let digits := l1.takeWhile isDigitCh
  let rest := l1.dropWhile isDigitCh
  if digits ≠ [] ∧ rest.all isPySpace then some digits else none

/-- Fallback branch of volume_label_from_source_ref: strip the
comma-separated chunks, keep the first two. -/
def vlsrFallback (s : String) : String :=
  let parts := ((splitOnChar ',' s.toList).map
      (fun p => String.mk (pyStripL p))).filter (fun p => p ≠ "")
  match parts with
  | a :: b :: _ => a ++ ", " ++ b
  | _ => s

/-- build_kg.volume_label_from_source_ref: from a citation such as
"ERA, Vene 5, 403/29" keep the series and the volume number ("ERA, Vene
5").  The anchored regex (two comma-free chunks, then an integer chunk,
then anything) is modelled on the comma-split chunks. -/
def volume_label_from_source_ref (source_ref : Option String) : String :=
  let s := clean_ws source_ref
  if s = "" then ""
  else
    match splitOnChar ',' s.toList with
    | p0 :: p1 :: p2 :: _ =>
      if p0 ≠ [] ∧ p1 ≠ [] then
        match wsDigitsWs p2 with
        | some digits =>
          clean_ws (some (String.mk (p0 ++ ',' :: p1))) ++ " " ++
            String.mk digits
        | none => vlsrFallback s
      else vlsrFallback s
    | _ => vlsrFallback s

/-- build_kg.build_place_label: one human-readable label from the English
place fields and the original place fields. -/
def build_place_label (cols : List String) (row : DFRow) : String :=
  let parts_en := ["recording_place_english", "recording_parish_english",
      "region_english", "country_english"].filterMap (fun c =>
    if cols.contains c then
      let v := clean_ws (some (getCell row c))
      if v = "" then none else some v
    else none)
  let parts_orig := ["recording_place", "recording_parish"].filterMap (fun c =>
    if cols.contains c then
      let v := clean_ws (some (getCell row c))
      if v = "" then none else some v
    else none)
  let s_en := pyStrip (String.intercalate ", " parts_en)
  let s_orig := pyStrip (String.intercalate ", " parts_orig)
  if s_en ≠ "" ∧ s_orig ≠ "" then s_en ++ " / " ++ s_orig
  else if s_en ≠ "" then s_en
  else s_orig

/-- build_kg.narrator_person_id: only the narrator id column, cleaned and
sentinel-checked. -/
def narrator_person_id (cols : List String) (row : DFRow) : String :=
  let v :=
    if cols.contains "narrator_person_id" then
      clean_ws (some (getCell row "narrator_person_id"))
    else ""
  if v = "" ∨ naSentinel v then "" else v

/-- build_kg.atu_codes_from_row: parse the atu_codes column, dropping
empties and missing-value sentinels. -/
def atu_codes_from_row (cols : List String) (row : DFRow) : List String :=
  if cols.contains "atu_codes" then
    (ensure_list (some (getCell row "atu_codes"))).filterMap (fun c =>
      let c2 := clean_ws (some c)
      if c2 = "" then none
      else if naSentinel c2 then none
      else some c2)
  else []

/-- Default dataset IRI of build_kg. -/
def DEFAULT_DATASET_IRI : String :=
  "https://github.com/eugeniavd/magic_tagger/rdf/dataset/corpus/v1"

/-- Volume-and-collection triples for one deduplicated volume row
(step 1 of build_graph). -/
def addVolumeRow (volume_map : List (String × String × String))
    (collections_map : List (String × String × List String))
    (cols : List String) (g : List RTriple) (row : DFRow) : List RTriple :=
  let vid := getCell row "volume_id"
  let coll_raw := getCell row "collection"
  let coll_uri := bk_iri_collection (collection_code coll_raw)
  let vol_uri := bk_iri_volume vid
  let g := addT g (vol_uri, rdf_type, RNode.uri dct_BibliographicResource)
  let g := addT g (vol_uri, dct_identifier, RNode.lit vid none none)
  let g :=
    if cols.contains "source_ref" then
      let lbl := volume_label_from_source_ref (some (getCell row "source_ref"))
      if lbl ≠ "" then addT g (vol_uri, rdfs_label, RNode.lit lbl none none)
      else g
    else g
  let g := addT g (vol_uri, dct_isPartOf, coll_uri)
  let g := (collectors_from_row cols row).foldl
      (fun g pid => addT g (vol_uri, dct_creator, bk_iri_person pid)) g
  let m := volume_map.lookup vid
  let kiv_pid := clean_ws (m.map (fun v => v.1))
  let kiv_url := clean_ws (m.map (fun v => v.2))
  let g :=
    if kiv_pid ≠ "" then
      addT g (vol_uri, dct_identifier, RNode.lit ("KIVIKE:" ++ kiv_pid) none none)
    else g
  let g :=
    if kiv_url ≠ "" then addT g (vol_uri, foaf_page, RNode.uri kiv_url) else g
  let g := addT g (coll_uri, rdf_type, RNode.uri dcmitype_Collection)
  let g := addT g (coll_uri, dct_identifier, RNode.lit coll_raw none none)
  let cmeta := collections_map.lookup coll_raw
  let label_et := clean_ws (cmeta.map (fun v => v.1))
  let g :=
    if label_et ≠ "" then
      addT g (coll_uri, rdfs_label, RNode.lit label_et (some "et") none)
    else addT g (coll_uri, rdfs_label, RNode.lit coll_raw none none)
  let urls := (cmeta.map (fun v => v.2)).getD []
  urls.foldl (fun g u =>
    let u2 := clean_ws (some u)
    if u2 ≠ "" then addT g (coll_uri, rdfs_seeAlso, RNode.uri u2) else g) g

/-- Tale triples for one deduplicated tale row (step 2 of build_graph);
the Nat threads fresh blank-node labels for place nodes. -/
def addTaleRow (dataset_iri : Option String) (add_dataset_links : Bool)
    (cols : List String) (acc : List RTriple × Nat) (row : DFRow) :
    List RTriple × Nat :=
  let g := acc.1
  let bn := acc.2
  let tid := getCell row "tale_id"
  let vid := clean_ws (some (getCell row "volume_id"))
  let tale_uri := bk_iri_tale tid
  let g := addT g (tale_uri, rdf_type, RNode.uri crm_E33)
  let g := addT g (tale_uri, dct_identifier, RNode.lit tid none none)
  let g :=
    if vid ≠ "" then addT g (tale_uri, dct_isPartOf, bk_iri_volume vid) else g
  let g :=
    if add_dataset_links then
      match dataset_iri with
      | some d => addT g (tale_uri, dct_isPartOf, RNode.uri d)
      | none => g
    else g
  let g :=
    if vid ≠ "" then addT g (tale_uri, dct_source, bk_iri_volume vid) else g
  let g :=
    if cols.contains "source_ref" then
      let src := clean_ws (some (getCell row "source_ref"))
      if src ≠ "" then
        addT g (tale_uri, dct_bibliographicCitation, RNode.lit src none none)
      else g
    else g
  let g :=
    if cols.contains "content_description_clean" then
      let d := clean_ws (some (getCell row "content_description_clean"))
      if d ≠ "" then addT g (tale_uri, dct_description, RNode.lit d none none)
      else g
    else g
  let g :=
    if cols.contains "rights_status" then
      let rs := clean_ws (some (getCell row "rights_status"))
      if rs ≠ "" then addT g (tale_uri, dct_accessRights, RNode.lit rs none none)
      else g
    else g
  let g :=
    if cols.contains "recorded_date_start" then
      let d := norm_xsd_date (some (getCell row "recorded_date_start"))
      if d ≠ "" then
        addT g (tale_uri, dct_created, RNode.lit d none (some xsd_date))
      else g
    else g
  let g := (atu_codes_from_row cols row).foldl
      (fun g code => addT g (tale_uri, dct_subject, bk_iri_atu code)) g
  let pl := build_place_label cols row
  let gb :=
    if pl ≠ "" then
      let g := addT g (RNode.bnode bn, rdf_type, RNode.uri crm_E53)
      let g := addT g (RNode.bnode bn, rdfs_label, RNode.lit pl none none)
      (addT g (tale_uri, dct_spatial, RNode.bnode bn), bn + 1)
    else (g, bn)
  let n_pid := narrator_person_id cols row
  if n_pid ≠ "" then
    (addT gb.1 (tale_uri, dct_contributor, bk_iri_person n_pid), gb.2)
  else gb

/-- build_kg.build_graph: check the required columns first (raising
KeyError, modelled as Except.error, before any triple is created), clean
the key columns, emit volumes and collections from rows deduplicated by
volume id with the first row winning, then emit tales deduplicated by
tale id. -/
def build_graph (df : DF) (volume_map : List (String × String × String))
    (collections_map : List (String × String × List String))
    (dataset_iri : Option String) (add_dataset_links : Bool) :
    Except String (List RTriple) :=
  match ["tale_id", "volume_id", "collection"].find?
      (fun c => !df.columns.contains c) with
  | some c => Except.error ("Missing required column: " ++ c)
  | none =>
    let rows := df.rows.map (cleanRowCols ["tale_id", "volume_id", "collection"])
    let vdf := rows.filter (fun r =>
      (getCell r "volume_id" != "") && (getCell r "collection" != ""))
    let vdf := dedupByKeyAux (fun r => getCell r "volume_id") [] vdf
    let g := vdf.foldl (addVolumeRow volume_map collections_map df.columns) []
    let tdf := dedupByKeyAux (fun r => getCell r "tale_id") []
      (rows.filter (fun r => getCell r "tale_id" != ""))
    let gt := tdf.foldl (addTaleRow dataset_iri add_dataset_links df.columns)
      (g, 0)
    Except.ok gt.1

/-- First scenario row of the dedup-policy claim: record T1 in container
V1 with collector A. -/
def c2row1 : DFRow :=
  ⟨[("tale_id", "T1"), ("volume_id", "V1"), ("collection", "c"),
    ("collector_person_ids", "A")]⟩

/-- Second scenario row: record T2 in the same container V1 with
collector B. -/
def c2row2 : DFRow :=
  ⟨[("tale_id", "T2"), ("volume_id", "V1"), ("collection", "c"),
    ("collector_person_ids", "B")]⟩

/-- The two-row scenario table of claim C2. -/
def c2df : DF :=
  ⟨["tale_id", "volume_id", "collection", "collector_person_ids"],
   [c2row1, c2row2]⟩

/-- The graph built from the scenario table with default options. -/
def c2graph : List RTriple :=
  ((build_graph c2df [] [] (some DEFAULT_DATASET_IRI) true).toOption).getD []

/-- Claim C2 counterexample: on the two-row scenario the built graph has
exactly one creator edge, the one from the first row (collector A); the
creator edge for collector B claimed by the specification is absent,
because build_graph deduplicates volume rows with the first row winning
before collectors are attached. -/
theorem C2_counterexample :
    (c2graph.filter (fun t => t.2.1 == dct_creator)).length = 1 ∧
    (bk_iri_volume "V1", dct_creator, bk_iri_person "A") ∈ c2graph ∧
    (bk_iri_volume "V1", dct_creator, bk_iri_person "B") ∉ c2graph := by
  refine ⟨rfl, ?_, ?_⟩ <;> decide

/-- Claim C2 (amended): on the scenario table the Graph Builder produces
exactly one Volume node V1 and two distinct Tale nodes each linked to it,
but attaches only the first matching row's collectors (the creator edges
are exactly the single edge to person A), per the first-row-wins merge
policy for volume-level attributes. -/
theorem C2_theorem :
    (c2graph.filter (fun t =>
        t.2.1 == rdf_type && t.2.2 == RNode.uri dct_BibliographicResource)).length
      = 1 ∧
    (bk_iri_volume "V1", rdf_type, RNode.uri dct_BibliographicResource) ∈
      c2graph ∧
    c2graph.filter (fun t => t.2.1 == dct_creator) =
      [(bk_iri_volume "V1", dct_creator, bk_iri_person "A")] ∧
    (bk_iri_tale "T1", dct_isPartOf, bk_iri_volume "V1") ∈ c2graph ∧
    (bk_iri_tale "T2", dct_isPartOf, bk_iri_volume "V1") ∈ c2graph ∧
    bk_iri_tale "T1" ≠ bk_iri_tale "T2" := by
  refine ⟨rfl, ?_, rfl, ?_, ?_, ?_⟩ <;> decide

/-- Claim C5: when a required column is missing, build_graph raises the
enumerated missing-column error naming the first missing column of the
minimum schema, and consequently returns no graph: no triple is ever
created and the caller never reaches serialization. -/
theorem C5_theorem (df : DF) (vm : List (String × String × String))
    (cm : List (String × String × List String)) (di : Option String)
    (adl : Bool) (c : String)
    (h : ["tale_id", "volume_id", "collection"].find?
        (fun c => !df.columns.contains c) = some c) :
    build_graph df vm cm di adl =
      Except.error ("Missing required column: " ++ c) := by
  unfold build_graph
  rw [h]

/-- Witness for C5_theorem: a table lacking the record id column. -/
theorem C5_witness :
    build_graph ⟨["volume_id", "collection"], []⟩ [] [] none true =
      Except.error ("Missing required column: " ++ "tale_id") :=
  C5_theorem ⟨["volume_id", "collection"], []⟩ [] [] none true "tale_id"
    (by decide)

theorem charOfNat_toNat_invalid {n : Nat} (h : ¬ Nat.isValidChar n) :
    (Char.ofNat n).toNat = 0 := by
  unfold Char.ofNat
  rw [dif_neg h]
  rfl

theorem hexDigit_ne_slash (n : Nat) : hexDigit n ≠ '/' := by
  intro hc
  have ht := congrArg Char.toNat hc
  have h47 : ('/' : Char).toNat = 47 := rfl
  unfold hexDigit at ht
  by_cases h10 : n < 10
  · rw [if_pos h10, charOfNat_toNat _ (Or.inl (by omega))] at ht
    omega
  · rw [if_neg h10] at ht
    by_cases hv : Nat.isValidChar (55 + n)
    · rw [charOfNat_toNat _ hv] at ht
      omega
    · rw [charOfNat_toNat_invalid hv] at ht
      omega

theorem pctByte_no_slash (b : Nat) : ∀ d ∈ pctByte b, d ≠ '/' := by
  intro d hd
  simp only [pctByte, List.mem_cons, List.not_mem_nil, or_false] at hd
  rcases hd with h | h | h
  · subst h
    decide
  · subst h
    exact hexDigit_ne_slash _
  · subst h
    exact hexDigit_ne_slash _

theorem utf8Bytes_ne_nil (n : Nat) : utf8Bytes n ≠ [] := by
  unfold utf8Bytes
  split_ifs <;> simp

theorem encodeChar_ne_nil (c : Char) : encodeChar c ≠ [] := by
  unfold encodeChar
  split_ifs with h
  · simp
  · rcases hu : utf8Bytes c.toNat with _ | ⟨b, bs⟩
    · exact absurd hu (utf8Bytes_ne_nil _)
    · rw [List.flatMap_cons]
      simp [pctByte]

theorem encodeChar_no_slash (c : Char) : ∀ d ∈ encodeChar c, d ≠ '/' := by
  intro d hd
  unfold encodeChar at hd
  split_ifs at hd with h
  · rw [List.mem_singleton] at hd
    subst hd
    intro hc
    subst hc
    exact absurd h (by decide)
  · rw [List.mem_flatMap] at hd
    obtain ⟨b, _, hdb⟩ := hd
    exact pctByte_no_slash b d hdb

theorem encodeSegL_ne_nil {l : List Char} (h : l ≠ []) : encodeSegL l ≠ [] := by
  rcases l with _ | ⟨c, rest⟩
  · exact absurd rfl h
  · unfold encodeSegL
    rw [List.flatMap_cons]
    intro hc
    rcases List.append_eq_nil.mp hc with ⟨h1, _⟩
    exact encodeChar_ne_nil c h1

theorem encodeSegL_no_slash (l : List Char) : ∀ d ∈ encodeSegL l, d ≠ '/' := by
  intro d hd
  unfold encodeSegL at hd
  rw [List.mem_flatMap] at hd
  obtain ⟨c, _, hdc⟩ := hd
  exact encodeChar_no_slash c d hdc

theorem starReplace_ne_nil {l : List Char} (h : l ≠ []) : starReplace l ≠ [] := by
  rcases l with _ | ⟨c, rest⟩
  · exact absurd rfl h
  · unfold starReplace
    rw [List.flatMap_cons]
    intro hc
    rcases List.append_eq_nil.mp hc with ⟨h1, _⟩
    revert h1
    split_ifs <;> simp

theorem takeWhile_append_all {p : Char → Bool} {l1 l2 : List Char}
    (h : ∀ c ∈ l1, p c = true) :
    (l1 ++ l2).takeWhile p = l1 ++ l2.takeWhile p := by
  induction l1 with
  | nil => simp
  | cons a as ih =>
    rw [List.cons_append, List.takeWhile_cons,
      if_pos (h a (List.mem_cons_self a as)),
      ih (fun c hc => h c (List.mem_cons_of_mem a hc)), List.cons_append]

theorem stripSlashes_eq_self {l : List Char} (h : ∀ c ∈ l, c ≠ '/') :
    stripSlashes l = l := by
  unfold stripSlashes
  have h1 : ∀ c ∈ l, (fun c => decide (c = '/')) c = false := by
    intro c hc
    simpa using h c hc
  rw [dropWhile_eq_self_of_all h1,
    dropWhile_eq_self_of_all (fun c hc => h1 c (List.mem_reverse.mp hc)),
    List.reverse_reverse]

/-- Final path segment of a string that decomposes as a prefix, a slash
and a slash-free suffix. -/
theorem finalPathSegment_of_suffix {l : List Char} (pre seg : List Char)
    (hl : l = pre ++ '/' :: seg) (h2 : ∀ c ∈ seg, c ≠ '/') :
    finalPathSegment (String.mk l) = String.mk seg := by
  subst hl
  unfold finalPathSegment
  rw [toList_string_mk, List.reverse_append, List.reverse_cons,
    List.append_assoc]
  have hall : ∀ c ∈ seg.reverse, (fun c => decide (c ≠ '/')) c = true := by
    intro c hc
    simpa using h2 c (List.mem_reverse.mp hc)
  rw [takeWhile_append_all hall]
  rw [List.singleton_append, List.takeWhile_cons, if_neg (by decide)]
  rw [List.append_nil, List.reverse_reverse]

/-- The path-join segment function applied to a nonempty slash-free
segment keeps the segment. -/
theorem pjClean_of_clean {seg : List Char} (h1 : seg ≠ [])
    (h2 : ∀ c ∈ seg, c ≠ '/') :
    pjClean (String.mk seg) = some seg := by
  show (if stripSlashes seg = [] then none else some (stripSlashes seg)) =
    some seg
  rw [stripSlashes_eq_self h2, if_neg h1]

/-- Two-part path_join of a fixed kind and a clean segment. -/
theorem path_join_pair (kind : String) (seg : List Char)
    (hfm : List.filterMap pjClean [kind, String.mk seg] = [kind.toList, seg]) :
    path_join [kind, String.mk seg] =
      String.mk (kgBASE.toList ++ (kind.toList ++ '/' :: (seg ++ []))) := by
  unfold path_join
  rw [hfm]
  rfl

/-- Three-part path_join for the concept namespace. -/
theorem path_join_atu (seg : List Char) (h1 : seg ≠ [])
    (h2 : ∀ c ∈ seg, c ≠ '/') :
    path_join ["taleType", "atu", String.mk seg] =
      String.mk (kgBASE.toList ++
        ("taleType".toList ++ '/' :: ("atu".toList ++ '/' :: (seg ++ [])))) := by
  have hone : List.filterMap pjClean [String.mk seg] = [seg] := by
    rw [List.filterMap_cons, pjClean_of_clean h1 h2]
    rfl
  have hfm : List.filterMap pjClean ["taleType", "atu", String.mk seg] =
      "taleType".toList :: "atu".toList :: [seg] := by
    show "taleType".toList :: "atu".toList :: List.filterMap pjClean [String.mk seg] =
      _
    rw [hone]
  unfold path_join
  rw [hfm]
  rfl

/-- The concrete minted IRI of an encoded segment has a nonempty final
path segment. -/
theorem encoded_iri_final_seg {tid : String} (hne : tid ≠ "") (kind : String)
    (hfm : ∀ seg : List Char, seg ≠ [] → (∀ c ∈ seg, c ≠ '/') →
      List.filterMap pjClean [kind, String.mk seg] = [kind.toList, seg]) :
    finalPathSegment (path_join [kind, encode_path_segment tid]) ≠ "" := by
  have hlist : tid.toList ≠ [] := by
    intro hc
    apply hne
    rw [← string_mk_toList tid, hc]
  have he1 : encodeSegL tid.toList ≠ [] := encodeSegL_ne_nil hlist
  have he2 : ∀ c ∈ encodeSegL tid.toList, c ≠ '/' := encodeSegL_no_slash _
  have hpj : path_join [kind, encode_path_segment tid] =
      String.mk (kgBASE.toList ++
        (kind.toList ++ '/' :: (encodeSegL tid.toList ++ []))) :=
    path_join_pair kind _ (hfm _ he1 he2)
  rw [hpj]
  rw [finalPathSegment_of_suffix (kgBASE.toList ++ kind.toList)
    (encodeSegL tid.toList ++ [])
    (by simp [List.append_assoc])
    (by
      intro c hc
      rw [List.append_nil] at hc
      exact he2 c hc)]
  intro hc
  have := (string_mk_eq_empty_iff _).mp hc
  rw [List.append_nil] at this
  exact he1 this

theorem exists_not_of_dropWhile_ne_nil {p : Char → Bool} {l : List Char}
    (h : l.dropWhile p ≠ []) : ∃ c ∈ l.dropWhile p, p c = false := by
  induction l with
  | nil => exact absurd rfl h
  | cons a as ih =>
    rw [List.dropWhile_cons] at h ⊢
    by_cases hp : p a = true
    · rw [if_pos hp] at h ⊢
      exact ih h
    · rw [if_neg hp] at h ⊢
      refine ⟨a, List.mem_cons_self a _, ?_⟩
      revert hp
      cases p a <;> simp

theorem pyStripL_has_nonspace {l : List Char} (h : pyStripL l ≠ []) :
    ∃ c ∈ pyStripL l, isPySpace c = false := by
  unfold pyStripL at h ⊢
  have h2 : (l.dropWhile isPySpace).reverse.dropWhile isPySpace ≠ [] := by
    intro hc
    rw [hc] at h
    exact h rfl
  obtain ⟨c, hcm, hcp⟩ := exists_not_of_dropWhile_ne_nil h2
  exact ⟨c, List.mem_reverse.mpr hcm, hcp⟩

theorem removeAllWs_strip_ne_nil {v : String} (h : pyStrip v ≠ "") :
    removeAllWs (pyStrip v).toList ≠ [] := by
  intro hc
  have hl : pyStripL v.toList ≠ [] := by
    intro hz
    apply h
    unfold pyStrip
    rw [hz]
  obtain ⟨c, hcm, hcp⟩ := pyStripL_has_nonspace hl
  have hmem : c ∈ (pyStrip v).toList := hcm
  have hall := List.filter_eq_nil_iff.mp hc c hmem
  rw [hcp] at hall
  exact hall rfl

theorem normTail_props {s2 : List Char} (hne : s2 ≠ []) {norm : String}
    (h : normTail s2 = Except.ok norm) :
    norm ≠ "" ∧ ∀ c ∈ norm.toList, c ≠ '/' := by
  unfold normTail at h
  split_ifs at h with hok
  · injection h with h2
    subst h2
    constructor
    · intro hc
      exact hne ((string_mk_eq_empty_iff _).mp hc)
    · intro c hc hcs
      subst hcs
      rw [atuOk, Bool.and_eq_true] at hok
      have := List.all_eq_true.mp hok.2 _ hc
      exact absurd this (by decide)
  · injection h with h2
    subst h2
    have htl : (encode_path_segment (String.mk s2)).toList = encodeSegL s2 :=
      rfl
    constructor
    · intro hc
      have := (string_mk_eq_empty_iff _).mp hc
      exact encodeSegL_ne_nil hne this
    · intro c hc
      rw [htl] at hc
      exact encodeSegL_no_slash _ c hc

theorem normCore_ok_props {l : List Char} {policy norm : String}
    (hrw : removeAllWs l ≠ [])
    (h : normCore l policy = Except.ok norm) :
    norm ≠ "" ∧ ∀ c ∈ norm.toList, c ≠ '/' := by
  have hs1 : upperL (removeAllWs l) ≠ [] := by
    intro hc
    exact hrw (List.map_eq_nil_iff.mp hc)
  have hred : normCore l policy =
      if (upperL (removeAllWs l)).any (fun c => c == '*') then
        if policy = "hyphen" then normTail (starReplace (upperL (removeAllWs l)))
        else if policy = "percent" then normTail (upperL (removeAllWs l))
        else Except.error "star_policy must be hyphen or percent"
      else normTail (upperL (removeAllWs l)) := rfl
  rw [hred] at h
  by_cases hstar : (upperL (removeAllWs l)).any (fun c => c == '*') = true
  · rw [if_pos hstar] at h
    by_cases hp1 : policy = "hyphen"
    · rw [if_pos hp1] at h
      exact normTail_props (starReplace_ne_nil hs1) h
    · rw [if_neg hp1] at h
      by_cases hp2 : policy = "percent"
      · rw [if_pos hp2] at h
        exact normTail_props hs1 h
      · rw [if_neg hp2] at h
        have h2 : (Except.error "star_policy must be hyphen or percent" :
            Except String String) = Except.ok norm := h
        exact Except.noConfusion h2
  · rw [if_neg hstar] at h
    exact normTail_props hs1 h

theorem normalize_code_ok_props {code : Option String} {policy norm : String}
    (h : normalize_code code policy = Except.ok norm) :
    norm ≠ "" ∧ ∀ c ∈ norm.toList, c ≠ '/' := by
  match code with
  | none =>
    have h2 : (Except.error ("code" ++ " must not be None") :
        Except String String) = Except.ok norm := h
    exact Except.noConfusion h2
  | some v =>
    rw [normalize_code_some] at h
    by_cases hE : pyStrip v = ""
    · rw [if_pos hE] at h
      have h2 : (Except.error ("code" ++ " must not be empty") :
          Except String String) = Except.ok norm := h
      exact Except.noConfusion h2
    · rw [if_neg hE] at h
      have h2 : normCore (pyStrip v).toList policy = Except.ok norm := h
      exact normCore_ok_props (removeAllWs_strip_ne_nil hE) h2

/-- Definitional reduction of iri_tale on a present value. -/
theorem iri_tale_some (s : String) :
    iri_tale (some s) =
      (if pyStrip s = "" then
        Except.error ("tale_id" ++ " must not be empty")
      else Except.ok (pyStrip s)) >>= (fun tid =>
        Except.ok (path_join ["tale", encode_path_segment tid])) := rfl

/-- Definitional reduction of iri_volume on a present value. -/
theorem iri_volume_some (s : String) :
    iri_volume (some s) =
      (if pyStrip s = "" then
        Except.error ("volume_id" ++ " must not be empty")
      else Except.ok (pyStrip s)) >>= (fun vid =>
        Except.ok (path_join ["volume", encode_path_segment vid])) := rfl

/-- Definitional reduction of iri_person on a present value. -/
theorem iri_person_some (s : String) :
    iri_person (some s) =
      (if pyStrip s = "" then
        Except.error ("person_id_or_slug" ++ " must not be empty")
      else Except.ok (pyStrip s)) >>= (fun pid =>
        Except.ok (path_join ["person", encode_path_segment pid])) := rfl

/-- Definitional reduction of iri_place on a present value. -/
theorem iri_place_some (s : String) :
    iri_place (some s) =
      (if pyStrip s = "" then
        Except.error ("place_id_or_slug" ++ " must not be empty")
      else Except.ok (pyStrip s)) >>= (fun pl =>
        Except.ok (path_join ["place", encode_path_segment pl])) := rfl

/-- Definitional reduction of iri_atu. -/
theorem iri_atu_eq (code : Option String) (policy : String) :
    iri_atu code policy =
      normalize_code code policy >>= (fun norm =>
        Except.ok (path_join ["taleType", "atu", norm])) := rfl

/-- Shared argument for the ok case of the encoded minters. -/
theorem encoded_minter_ok {s r : String} (kind : String)
    (hfm : ∀ seg : List Char, seg ≠ [] → (∀ c ∈ seg, c ≠ '/') →
      List.filterMap pjClean [kind, String.mk seg] = [kind.toList, seg])
    (hE : pyStrip s ≠ "")
    (h : (Except.ok (path_join [kind, encode_path_segment (pyStrip s)]) :
        Except String String) = Except.ok r) :
    finalPathSegment r ≠ "" := by
  injection h with h2
  subst h2
  exact encoded_iri_final_seg hE kind hfm

/-- The filterMap computation for the tale namespace. -/
theorem pj_fm_tale (seg : List Char) (h1 : seg ≠ []) (h2 : ∀ c ∈ seg, c ≠ '/') :
    List.filterMap pjClean ["tale", String.mk seg] = ["tale".toList, seg] := by
  show "tale".toList :: List.filterMap pjClean [String.mk seg] = _
  rw [List.filterMap_cons, pjClean_of_clean h1 h2]
  rfl

/-- The filterMap computation for the volume namespace. -/
theorem pj_fm_volume (seg : List Char) (h1 : seg ≠ [])
    (h2 : ∀ c ∈ seg, c ≠ '/') :
    List.filterMap pjClean ["volume", String.mk seg] = ["volume".toList, seg] := by
  show "volume".toList :: List.filterMap pjClean [String.mk seg] = _
  rw [List.filterMap_cons, pjClean_of_clean h1 h2]
  rfl

/-- The filterMap computation for the person namespace. -/
theorem pj_fm_person (seg : List Char) (h1 : seg ≠ [])
    (h2 : ∀ c ∈ seg, c ≠ '/') :
    List.filterMap pjClean ["person", String.mk seg] = ["person".toList, seg] := by
  show "person".toList :: List.filterMap pjClean [String.mk seg] = _
  rw [List.filterMap_cons, pjClean_of_clean h1 h2]
  rfl

/-- The filterMap computation for the place namespace. -/
theorem pj_fm_place (seg : List Char) (h1 : seg ≠ [])
    (h2 : ∀ c ∈ seg, c ≠ '/') :
    List.filterMap pjClean ["place", String.mk seg] = ["place".toList, seg] := by
  show "place".toList :: List.filterMap pjClean [String.mk seg] = _
  rw [List.filterMap_cons, pjClean_of_clean h1 h2]
  rfl

/-- The minted concept IRI from a normalized code has a nonempty final
path segment. -/
theorem atu_iri_final_seg {norm : String} (h1 : norm ≠ "")
    (h2 : ∀ c ∈ norm.toList, c ≠ '/') :
    finalPathSegment (path_join ["taleType", "atu", norm]) ≠ "" := by
  have hlist : norm.toList ≠ [] := by
    intro hc
    apply h1
    rw [← string_mk_toList norm, hc]
  have hpj := path_join_atu norm.toList hlist h2
  rw [string_mk_toList] at hpj
  rw [hpj]
  rw [finalPathSegment_of_suffix
    (kgBASE.toList ++ ("taleType".toList ++ '/' :: "atu".toList))
    (norm.toList ++ [])
    (by simp [List.append_assoc])
    (by
      intro c hc
      rw [List.append_nil] at hc
      exact h2 c hc)]
  intro hc
  have := (string_mk_eq_empty_iff _).mp hc
  rw [List.append_nil] at this
  exact hlist this

/-- Claim C6 counterexample: the Graph Builder's own concept minter
(build_kg.iri_atu) silently mints an identifier with an empty final path
segment from the raw code "/": it has no error channel and its output
ends in a slash. -/
theorem C6_counterexample :
    bk_iri_atu "/" =
      RNode.uri "https://github.com/eugeniavd/magic_tagger/rdf/taleType/atu//" ∧
    finalPathSegment
      "https://github.com/eugeniavd/magic_tagger/rdf/taleType/atu//" = "" :=
  ⟨rfl, rfl⟩

/-- Claim C6 (amended): the Identity Minter of kg_helpers behaves as the
claim states for every kind (tale, volume, person, place, concept): a
missing value raises the named must-not-be-None error, a value that is
empty after stripping raises the named must-not-be-empty error, and every
successfully minted identifier has a nonempty final path segment.  The
Graph Builder's local concept minter build_kg.iri_atu, however, never
raises: it maps empty input to the nonempty UNKNOWN concept, and (per the
counterexample) can return an identifier whose final path segment is
empty for slash-bearing raw codes. -/
theorem C6_theorem :
    (iri_tale none = Except.error ("tale_id" ++ " must not be None")) ∧
    (∀ s, pyStrip s = "" →
      iri_tale (some s) = Except.error ("tale_id" ++ " must not be empty")) ∧
    (∀ s r, iri_tale (some s) = Except.ok r → finalPathSegment r ≠ "") ∧
    (iri_volume none = Except.error ("volume_id" ++ " must not be None")) ∧
    (∀ s, pyStrip s = "" →
      iri_volume (some s) =
        Except.error ("volume_id" ++ " must not be empty")) ∧
    (∀ s r, iri_volume (some s) = Except.ok r → finalPathSegment r ≠ "") ∧
    (iri_person none =
      Except.error ("person_id_or_slug" ++ " must not be None")) ∧
    (∀ s, pyStrip s = "" →
      iri_person (some s) =
        Except.error ("person_id_or_slug" ++ " must not be empty")) ∧
    (∀ s r, iri_person (some s) = Except.ok r → finalPathSegment r ≠ "") ∧
    (iri_place none =
      Except.error ("place_id_or_slug" ++ " must not be None")) ∧
    (∀ s, pyStrip s = "" →
      iri_place (some s) =
        Except.error ("place_id_or_slug" ++ " must not be empty")) ∧
    (∀ s r, iri_place (some s) = Except.ok r → finalPathSegment r ≠ "") ∧
    (iri_atu none "hyphen" = Except.error ("code" ++ " must not be None")) ∧
    (∀ s, pyStrip s = "" →
      iri_atu (some s) "hyphen" =
        Except.error ("code" ++ " must not be empty")) ∧
    (∀ s r policy, iri_atu (some s) policy = Except.ok r →
      finalPathSegment r ≠ "") ∧
    bk_iri_atu "" = RNode.uri (kgBASE ++ "taleType/atu/UNKNOWN") := by
  refine ⟨rfl, ?_, ?_, rfl, ?_, ?_, rfl, ?_, ?_, rfl, ?_, ?_, rfl, ?_, ?_, rfl⟩
  · intro s h
    rw [iri_tale_some, if_pos h]
    rfl
  · intro s r h
    rw [iri_tale_some] at h
    by_cases hE : pyStrip s = ""
    · rw [if_pos hE] at h
      have h2 : (Except.error ("tale_id" ++ " must not be empty") :
          Except String String) = Except.ok r := h
      exact Except.noConfusion h2
    · rw [if_neg hE] at h
      have h2 : (Except.ok
          (path_join ["tale", encode_path_segment (pyStrip s)]) :
          Except String String) = Except.ok r := h
      exact encoded_minter_ok "tale" pj_fm_tale hE h2
  · intro s h
    rw [iri_volume_some, if_pos h]
    rfl
  · intro s r h
    rw [iri_volume_some] at h
    by_cases hE : pyStrip s = ""
    · rw [if_pos hE] at h
      have h2 : (Except.error ("volume_id" ++ " must not be empty") :
          Except String String) = Except.ok r := h
      exact Except.noConfusion h2
    · rw [if_neg hE] at h
      have h2 : (Except.ok
          (path_join ["volume", encode_path_segment (pyStrip s)]) :
          Except String String) = Except.ok r := h
      exact encoded_minter_ok "volume" pj_fm_volume hE h2
  · intro s h
    rw [iri_person_some, if_pos h]
    rfl
  · intro s r h
    rw [iri_person_some] at h
    by_cases hE : pyStrip s = ""
    · rw [if_pos hE] at h
      have h2 : (Except.error ("person_id_or_slug" ++ " must not be empty") :
          Except String String) = Except.ok r := h
      exact Except.noConfusion h2
    · rw [if_neg hE] at h
      have h2 : (Except.ok
          (path_join ["person", encode_path_segment (pyStrip s)]) :
          Except String String) = Except.ok r := h
      exact encoded_minter_ok "person" pj_fm_person hE h2
  · intro s h
    rw [iri_place_some, if_pos h]
    rfl
  · intro s r h
    rw [iri_place_some] at h
    by_cases hE : pyStrip s = ""
    · rw [if_pos hE] at h
      have h2 : (Except.error ("place_id_or_slug" ++ " must not be empty") :
          Except String String) = Except.ok r := h
      exact Except.noConfusion h2
    · rw [if_neg hE] at h
      have h2 : (Except.ok
          (path_join ["place", encode_path_segment (pyStrip s)]) :
          Except String String) = Except.ok r := h
      exact encoded_minter_ok "place" pj_fm_place hE h2
  · intro s h
    rw [iri_atu_eq, normalize_code_some, if_pos h]
    rfl
  · intro s r policy h
    rw [iri_atu_eq] at h
    cases hN : normalize_code (some s) policy with
    | error e =>
      rw [hN] at h
      have h2 : (Except.error e : Except String String) = Except.ok r := h
      exact Except.noConfusion h2
    | ok norm =>
      rw [hN] at h
      have h2 : (Except.ok (path_join ["taleType", "atu", norm]) :
          Except String String) = Except.ok r := h
      injection h2 with h3
      subst h3
      obtain ⟨p1, p2⟩ := normalize_code_ok_props hN
      exact atu_iri_final_seg p1 p2

/-- Witness for C6_theorem: whitespace-only tale id raises; the id "t1"
mints an IRI whose final segment is nonempty. -/
theorem C6_witness :
    pyStrip " " = "" ∧
    iri_tale (some " ") = Except.error ("tale_id" ++ " must not be empty") ∧
    finalPathSegment
      "https://github.com/eugeniavd/magic_tagger/rdf/tale/t1" ≠ "" :=
  ⟨by decide, C6_theorem.2.1 " " (by decide),
   C6_theorem.2.2.1 "t1" "https://github.com/eugeniavd/magic_tagger/rdf/tale/t1"
     rfl⟩

/-- config.TaleStatus. -/
inductive TaleStatus where
  | AUTO_ADOPT_PRIMARY
  | NEEDS_REVIEW_A
  | NEEDS_REVIEW_B
  | WEAK
deriving DecidableEq, Repr

/-- config.StatusRule; scores are modelled as rationals. -/
structure StatusRule where
  priority : Nat
  label : TaleStatus
  min_score : ℚ
  min_anchor : ℚ
  min_delta : Option ℚ
deriving Repr

/-- config.STATUS_RULES, the fixed priority-ordered thresholds. -/
def STATUS_RULES : List StatusRule :=
  [⟨1, TaleStatus.AUTO_ADOPT_PRIMARY, 75/100, 60/100, some (15/100)⟩,
   ⟨2, TaleStatus.NEEDS_REVIEW_A, 50/100, 40/100, none⟩,
   ⟨3, TaleStatus.NEEDS_REVIEW_B, 35/100, 70/100, none⟩]

/-- config.DEFAULT_STATUS. -/
def DEFAULT_STATUS : TaleStatus := TaleStatus.WEAK

/-- config.ALLOW_MULTI_LABEL. -/
def ALLOW_MULTI_LABEL : Bool := true

/-- config.CO_TYPE_MAX_SCORE_GAP. -/
def CO_TYPE_MAX_SCORE_GAP : ℚ := 10/100

/-- config.CO_TYPE_MIN_SCORE. -/
def CO_TYPE_MIN_SCORE : ℚ := 55/100

/-- config.CO_TYPE_MIN_ANCHOR. -/
def CO_TYPE_MIN_ANCHOR : ℚ := 55/100

/-- config.MAX_CO_TYPES. -/
def MAX_CO_TYPES : Nat := 2

/-- config.clip01: clamp into the unit interval. -/
def clip01 (x : ℚ) : ℚ := if x < 0 then 0 else if 1 < x then 1 else x

/-- scoring.Candidate. -/
structure Candidate where
  atu_code : String
  score : ℚ
  anchor : ℚ
deriving DecidableEq, Repr

/-- scoring.Decision. -/
structure Decision where
  tale_status : TaleStatus
  primary_atu : Option String
  co_types : List String
  delta_top12 : ℚ
  candidates : List Candidate
deriving DecidableEq, Repr

/-- Stable descending insertion by score: an earlier element stays before
later elements with an equal score, matching Python list.sort with
reverse=True. -/
def insertDescByScore (c : Candidate) : List Candidate → List Candidate
  | [] => [c]
  | d :: rest =>
    if d.score ≤ c.score then c :: d :: rest
    else d :: insertDescByScore c rest

/-- Stable descending sort by score. -/
def sortDescByScore : List Candidate → List Candidate
  | [] => []
  | c :: rest => insertDescByScore c (sortDescByScore rest)

/-- scoring.normalize_candidates: clamp scores and anchors to the unit
interval, drop empty codes, sort descending by score. -/
def normalize_candidates (candidates : List Candidate) : List Candidate :=
  sortDescByScore (candidates.filterMap (fun c =>
    let code := pyStrip c.atu_code
    if code = "" then none
    else some ⟨code, clip01 c.score, clip01 c.anchor⟩))

/-- scoring.compute_delta_top12: top-1 minus top-2 score, zero without a
second candidate. -/
def compute_delta_top12 (sorted_candidates : List Candidate) : ℚ :=
  match sorted_candidates with
  | c1 :: c2 :: _ => clip01 (c1.score - c2.score)
  | _ => 0

/-- One rule of decide_status is satisfied when the primary candidate
clears the score, anchor, and (when present) delta thresholds. -/
def ruleMatches (primary : Candidate) (delta_top12 : ℚ) (rule : StatusRule) :
    Bool :=
  decide (rule.min_score ≤ primary.score) &&
  decide (rule.min_anchor ≤ primary.anchor) &&
  (match rule.min_delta with
   | some d => decide (d ≤ delta_top12)
   | none => true)

/-- Stable ascending insertion by priority (sorted with the priority
key). -/
def insertAscByPriority (r : StatusRule) : List StatusRule → List StatusRule
  | [] => [r]
  | s :: rest =>
    if r.priority ≤ s.priority then r :: s :: rest
    else s :: insertAscByPriority r rest

/-- Stable ascending sort by priority. -/
def sortRulesByPriority : List StatusRule → List StatusRule
  | [] => []
  | r :: rest => insertAscByPriority r (sortRulesByPriority rest)

/-- scoring.decide_status: first matching rule in priority order, else the
default status. -/
def decide_status (primary : Candidate) (delta_top12 : ℚ) : TaleStatus :=
  match (sortRulesByPriority STATUS_RULES).find?
      (fun rule => ruleMatches primary delta_top12 rule) with
  | some rule => rule.label
  | none => DEFAULT_STATUS

/-- Loop body of propose_co_types with the collected co-types so far. -/
def coTypesGo (top1 : Candidate) (acc : List String) :
    List Candidate → List String
  | [] => acc
  | cand :: rest =>
    if MAX_CO_TYPES ≤ acc.length then acc
    else
      if top1.score - cand.score ≤ CO_TYPE_MAX_SCORE_GAP ∧
          CO_TYPE_MIN_SCORE ≤ cand.score ∧
          CO_TYPE_MIN_ANCHOR ≤ cand.anchor then
        coTypesGo top1 (acc ++ [cand.atu_code]) rest
      else coTypesGo top1 acc rest

/-- scoring.propose_co_types. -/
def propose_co_types (sorted_candidates : List Candidate) : List String :=
  if ALLOW_MULTI_LABEL = false ∨ sorted_candidates.length < 2 then []
  else
    match sorted_candidates with
    | top1 :: rest => coTypesGo top1 [] rest
    | [] => []

/-- scoring.make_decision. -/
def make_decision (top_candidates : List Candidate) : Decision :=
  let cands := normalize_candidates top_candidates
  let delta := compute_delta_top12 cands
  match cands with
  | [] => ⟨DEFAULT_STATUS, none, [], delta, []⟩
  | primary :: _ =>
    ⟨decide_status primary delta, some primary.atu_code,
     propose_co_types cands, delta, cands⟩

/-- service._confidence_band: the ternary band with fixed thresholds
hardcoded in service.py. -/
def confidence_band (score : ℚ) : String :=
  if 75/100 ≤ score then "high"
  else if 50/100 ≤ score then "medium"
  else "low"

/-- The confidence-band column of the service's Top-K suggestions payload
(service.classify, band field of each suggestion). -/
def classify_suggestion_bands (decision : Decision) (top_k : Nat) :
    List String :=
  (decision.candidates.take top_k).map (fun cand => confidence_band cand.score)

/-- export_jsonld._band_title: strip and lowercase the stored band, map
"high" to "High" and everything else to "low". -/
def band_title (band : Option String) : String :=
  if pyLower (pyStrip (band.getD "")) = "high" then "High" else "low"

/-- The run-level band coercion of model_store.build_export_result: the
raw band collapses to "high" or "low". -/
def run_band (raw_confidence_band : Option String) : String :=
  if pyLower (pyStrip (raw_confidence_band.getD "")) = "high" then "high"
  else "low"

/-- Claim C3 counterexample: for the scenario candidates (510A at 0.62,
480 at 0.21) the band the service attaches to the top suggestion is
"medium", not "high": the band function is the ternary one hardcoded in
service.py (thresholds 0.75 and 0.50), and no externally supplied
min-score or min-delta thresholds govern it. -/
theorem C3_counterexample :
    (classify_suggestion_bands
      (make_decision [⟨"510A", 62/100, 0⟩, ⟨"480", 21/100, 0⟩]) 3).head? =
      some "medium" ∧
    confidence_band (62/100) = "medium" ∧
    ("medium" : String) ≠ "high" ∧ ("medium" : String) ≠ "low" := by
  refine ⟨?_, ?_, by decide, by decide⟩
  · norm_num [make_decision, normalize_candidates, List.filterMap, clip01,
      sortDescByScore, insertDescByScore, classify_suggestion_bands,
      confidence_band, List.take, pyStrip, pyStripL, isPySpace]
  · unfold confidence_band
    norm_num

/-- Claim C3 (amended): for the scenario candidates the decision's primary
code is "510A" as claimed, but the confidence band is computed by the
hardcoded ternary function of service.py, which yields "medium" at score
0.62; the export layer then collapses any band to the binary "High"/"low"
via band_title and to "high"/"low" via the build_export_result run-band
coercion, again without any externally supplied threshold. -/
theorem C3_theorem :
    (make_decision [⟨"510A", 62/100, 0⟩, ⟨"480", 21/100, 0⟩]).primary_atu =
      some "510A" ∧
    confidence_band (62/100) = "medium" ∧
    band_title (some "medium") = "low" ∧
    run_band (some "medium") = "low" ∧
    (∀ q : ℚ, confidence_band q = "high" ∨ confidence_band q = "medium" ∨
      confidence_band q = "low") ∧
    (∀ b, band_title b = "High" ∨ band_title b = "low") ∧
    (∀ b, run_band b = "high" ∨ run_band b = "low") := by
  refine ⟨?_, ?_, by decide, by decide, ?_, ?_, ?_⟩
  · norm_num [make_decision, normalize_candidates, List.filterMap, clip01,
      sortDescByScore, insertDescByScore, pyStrip, pyStripL, isPySpace]
    decide
  · unfold confidence_band
    norm_num
  · intro q
    unfold confidence_band
    split_ifs
    · exact Or.inl rfl
    · exact Or.inr (Or.inl rfl)
    · exact Or.inr (Or.inr rfl)
  · intro b
    unfold band_title
    split_ifs
    · exact Or.inl rfl
    · exact Or.inr rfl
  · intro b
    unfold run_band
    split_ifs
    · exact Or.inl rfl
    · exact Or.inr rfl

/-- Claim C10: make_decision is total on degenerate input.  When every
candidate code is empty or whitespace-only (the empty list included), it
returns the default WEAK status, no primary code, no co-types, a zero
delta, and an empty candidate tuple, and never raises. -/
theorem C10_theorem (cs : List Candidate)
    (h : ∀ c ∈ cs, pyStrip c.atu_code = "") :
    make_decision cs =
      ⟨DEFAULT_STATUS, none, [], 0, []⟩ := by
  have hn : normalize_candidates cs = [] := by
    unfold normalize_candidates
    have hfm : cs.filterMap (fun c =>
        let code := pyStrip c.atu_code
        if code = "" then (none : Option Candidate)
        else some ⟨code, clip01 c.score, clip01 c.anchor⟩) = [] := by
      rw [List.filterMap_eq_nil_iff]
      intro c hc
      show (if pyStrip c.atu_code = "" then (none : Option Candidate)
            else some (Candidate.mk (pyStrip c.atu_code) (clip01 c.score)
              (clip01 c.anchor))) = none
      rw [if_pos (h c hc)]
    rw [hfm]
    rfl
  unfold make_decision
  rw [hn]
  rfl

/-- Witness for C10_theorem at a whitespace-only candidate. -/
theorem C10_witness :
    make_decision [⟨" ", 0, 0⟩] =
      ⟨DEFAULT_STATUS, none, [], 0, []⟩ :=
  C10_theorem [⟨" ", 0, 0⟩] (by
    intro c hc
    rw [List.mem_singleton] at hc
    subst hc
    decide)

/-- Truthy string coalescing: Python `a or b` for an optional string with
the empty string falsy. -/
def orStr (a : Option String) (b : String) : String :=
  match a with
  | some s => if s = "" then b else s
  | none => b

/-- Strip, then treat an empty result as absent: the recurring
`str(x or "").strip() or None` idiom. -/
def stripOrNone (o : Option String) : Option String :=
  let s := pyStrip (o.getD "")
  if s = "" then none else some s

/-- Keep only truthy (nonempty) strings: Python `x if x else None`. -/
def optTruthy (o : Option String) : Option String :=
  match o with
  | some s => if s = "" then none else some s
  | none => none

/-- First truthy value of a chain of optional strings with a final
default (the meta.get(...) or meta.get(...) or default idiom). -/
def firstTruthy (l : List (Option String)) (dflt : String) : String :=
  match l with
  | [] => dflt
  | o :: rest => orStr o (firstTruthy rest dflt)

/-- Characters kept by export_jsonld._iri_safe: urllib quote's always-safe
set (letters, digits, underscore, dot, hyphen, tilde) plus the explicit
safe string of punctuation and reserved characters. -/
def iriSafeChar (c : Char) : Bool :=
  safeChar c ||
  decide (c.toNat = 58 ∨ c.toNat = 47 ∨ c.toNat = 35 ∨ c.toNat = 63 ∨
    c.toNat = 38 ∨ c.toNat = 61 ∨ c.toNat = 64 ∨ c.toNat = 91 ∨
    c.toNat = 93 ∨ c.toNat = 33 ∨ c.toNat = 36 ∨ c.toNat = 39 ∨
    c.toNat = 40 ∨ c.toNat = 41 ∨ c.toNat = 42 ∨ c.toNat = 43 ∨
    c.toNat = 44 ∨ c.toNat = 59 ∨ c.toNat = 37)

/-- export_jsonld._iri_safe: percent-encode with the extended safe set. -/
def iriSafe (s : String) : String :=
  String.mk (s.toList.flatMap (fun c =>
    if iriSafeChar c then [c] else (utf8Bytes c.toNat).flatMap pctByte))

/-- Leftmost non-overlapping substring replacement (str.replace). -/
def replaceSub (pat repl l : List Char) (fuel : Nat) : List Char :=
  match fuel, l with
  | 0, l => l
  | _, [] => []
  | fuel + 1, c :: rest =>
    if pat.isPrefixOf (c :: rest) then
      repl ++ replaceSub pat repl ((c :: rest).drop pat.length) fuel
    else c :: replaceSub pat repl rest fuel

/-- str.replace wrapper with length fuel. -/
def pyReplace (s pat repl : String) : String :=
  String.mk (replaceSub pat.toList repl.toList s.toList (s.toList.length + 1))

/-- export_jsonld._as_z: rewrite the explicit UTC offset to Z. -/
def asZ (dt : Option String) : String :=
  let s := pyStrip (dt.getD "")
  if s = "" then "" else pyReplace s "+00:00" "Z"

/-- export_jsonld._ts_slug: Z-normalise, replace colons by hyphens, make
IRI-safe. -/
def tsSlug (iso_ts : String) : String :=
  iriSafe (pyReplace (pyReplace (pyStrip iso_ts) "+00:00" "Z") ":" "-")

/-- export_jsonld BASE_DATA (no trailing slash). -/
def BASE_DATA : String := "https://github.com/eugeniavd/magic_tagger/rdf"

/-- export_jsonld._rdf_iri: join slash-stripped nonempty parts under
BASE_DATA. -/
def rdfIri (parts : List String) : String :=
  let path := String.intercalate "/" (parts.filterMap (fun p =>
    if pyStrip p = "" then none else some (String.mk (stripSlashes p.toList))))
  BASE_DATA ++ "/" ++ path

/-- export_jsonld._atu_norm: strip whitespace, then strip trailing
asterisks. -/
def atuNorm (code : String) : String :=
  String.mk (((pyStripL code.toList).reverse.dropWhile
    (fun c => c = '*')).reverse)

/-- model_store._data_iri: parts are slash-stripped then whitespace
stripped; an empty path yields the bare base. -/
def data_iri (parts : List String) : String :=
  let path := String.intercalate "/" (parts.filterMap (fun p =>
    if pyStrip p = "" then none
    else some (pyStrip (String.mk (stripSlashes p.toList)))))
  if path = "" then BASE_DATA else BASE_DATA ++ "/" ++ path

/-- The run payload produced by service.classify and consumed by
model_store.build_export_result (string-valued fields optional, floats as
rationals). -/
structure RunD where
  run_id : Option String
  tale_id : Option String
  model_version : Option String
  model_name : Option String
  model_sha : Option String
  source_version : Option String
  created_at : Option String
  status : Option String
  warnings : List String
  tale_status : Option String
  primary_atu : Option String
  co_types : List String
  delta_top12 : Option ℚ
  confidence_band : Option String
  decision_policy : Option String
  decision_policy_label : Option String
  score1 : Option ℚ
  score2 : Option ℚ
  task : Option String
  text_cols : Option String
  trained_at : Option String
  note : Option String
  dataset_landing_url : Option String
  labels_download_url : Option String
  decision_policy_download_url : Option String
  labelset_id : Option String
  typing_source : Option String
deriving DecidableEq, Repr

/-- One suggestion row of the classify payload, as read by
build_export_result. -/
structure SuggestionD where
  atu_code : Option String
  score : Option ℚ
  label : Option String
deriving DecidableEq, Repr

/-- The meta dictionary of the canonical export result (the single source
of truth for provenance and the UI).  typing_source is modelled by its
string identifier. -/
structure ExportMeta where
  task : Option String
  text_cols : Option String
  model_name : Option String
  model_version : Option String
  trained_at : Option String
  note : Option String
  model_sha : Option String
  dataset_landing_url : Option String
  run_id : Option String
  tale_id : Option String
  created_at : Option String
  inferred_at : Option String
  generated_at : Option String
  status : Option String
  warnings : List String
  source_version : Option String
  tale_status : Option String
  primary_atu : Option String
  model_primary_atu : Option String
  co_types : List String
  delta_top12 : Option ℚ
  confidence_band : Option String
  decision_policy : Option String
  decision_policy_label : Option String
  score1 : Option ℚ
  score2 : Option ℚ
  confidence_band_raw : Option String
  labels_download_url : Option String
  decision_policy_download_url : Option String
  labelset_id : Option String
  run_uri : Option String
  model_uri : Option String
  input_text_uri : Option String
  result_uri : Option String
  text_sha256 : Option String
  final_decision_source : Option String
  final_atu : Option String
  final_expert_note : Option String
  final_saved_at : Option String
  expert_agent_id : Option String
  k : Option Nat
  typing_source : Option String
deriving DecidableEq, Repr

/-- One exported candidate row of build_export_result. -/
structure CandOut where
  rank : Nat
  atu : String
  score : Option ℚ
  label : String
  confidence_band : String
deriving DecidableEq, Repr

/-- The canonical export result: id, meta, candidates. -/
structure ExportResult where
  id : String
  meta : ExportMeta
  candidates : List CandOut
deriving DecidableEq, Repr

/-- Candidate rows of build_export_result: Top-K suggestions with ranks
minted by position; only the top-ranked row inherits the run band, the
rest are "low". -/
def buildCandidates (run_band_v : String) (i : Nat) :
    List SuggestionD → List CandOut
  | [] => []
  | s :: rest =>
    { rank := i,
      atu := pyStrip (s.atu_code.getD ""),
      score := s.score,
      label := orStr s.label "Unknown ATU type",
      confidence_band := if i = 1 then run_band_v else "low" } ::
      buildCandidates run_band_v (i + 1) rest

/-- model_store.build_export_result, parameterised by the content-hash
function h standing for hashlib sha256 hexdigest of the UTF-8 text.  The
input text reaches the result only through h. -/
def build_export_result (h : String → String) (run : RunD)
    (suggestions : List SuggestionD) (tale_id : String) (text_ru : String)
    (k : Nat) : ExportResult :=
  let band_raw := pyLower (pyStrip (run.confidence_band.getD ""))
  let run_band_v := if band_raw = "high" then "high" else "low"
  let run_policy_id := pyStrip (orStr run.decision_policy "high_else")
  let run_policy_label := pyStrip (orStr run.decision_policy_label "High/Else")
  let run_id := stripOrNone run.run_id
  let model_sha := stripOrNone run.model_sha
  let model_version := stripOrNone run.model_version
  let input_text_id :=
    let a := pyStrip (orStr run.tale_id tale_id)
    if a = "" then pyStrip tale_id else a
  let created_at := run.created_at
  let text_sha256 := h text_ru
  let run_uri := run_id.map (fun rid => data_iri ["run", rid])
  let model_uri := data_iri ["model",
    orStr (model_sha.or model_version) "unknown"]
  let input_text_uri := data_iri ["text", input_text_id]
  let result_uri :=
    if (created_at.getD "") ≠ "" then
      let ts_slug := String.mk (encodeSegL
        (pyReplace (pyReplace (created_at.getD "") "+00:00" "Z") ":" "-").toList)
      data_iri ["result", input_text_id, ts_slug]
    else data_iri ["result", orStr run_id "run", input_text_id]
  { id := tale_id,
    meta := {
      task := run.task,
      text_cols := run.text_cols,
      model_name := run.model_name,
      model_version := model_version,
      trained_at := run.trained_at,
      note := run.note,
      model_sha := model_sha,
      dataset_landing_url := some (orStr run.dataset_landing_url
        "https://github.com/eugeniavd/magic_tagger/commit/1ebea31920a6adc352979b2518e072aa2d1a0332"),
      run_id := run_id,
      tale_id := some input_text_id,
      created_at := created_at,
      inferred_at := none,
      generated_at := none,
      status := some (orStr run.status "done"),
      warnings := run.warnings,
      source_version := run.source_version,
      tale_status := run.tale_status,
      primary_atu := run.primary_atu,
      model_primary_atu := none,
      co_types := run.co_types,
      delta_top12 := run.delta_top12,
      confidence_band := some run_band_v,
      decision_policy := some run_policy_id,
      decision_policy_label := some run_policy_label,
      score1 := run.score1,
      score2 := run.score2,
      confidence_band_raw := if band_raw = "" then none else some band_raw,
      labels_download_url := some (orStr run.labels_download_url
        "https://github.com/eugeniavd/magic_tagger/blob/main/models/labels.json"),
      decision_policy_download_url := some (orStr
        run.decision_policy_download_url
        "https://github.com/eugeniavd/magic_tagger/blob/main/models/meta.json"),
      labelset_id := some (orStr run.labelset_id "labels-v1"),
      run_uri := run_uri,
      model_uri := some model_uri,
      input_text_uri := some input_text_uri,
      result_uri := some result_uri,
      text_sha256 := some text_sha256,
      final_decision_source := none,
      final_atu := none,
      final_expert_note := none,
      final_saved_at := none,
      expert_agent_id := none,
      k := none,
      typing_source := some (orStr run.typing_source
        "ffc_284-286_2011_uther") },
    candidates := buildCandidates run_band_v 1 (suggestions.take k) }

/-- One exported candidate node of to_jsonld (rft:ClassificationCandidate);
rawCode carries the skos notation field. -/
structure CandNode where
  id : String
  rank : Nat
  predictedTaleType : String
  rawCode : String
  confidenceScore : Option ℚ
  confidenceBand : String
deriving DecidableEq, Repr

/-- The exported ClassificationResult node fields relevant to decisions
and overrides. -/
structure ResultNode where
  id : String
  identifier : String
  forTale : String
  wasGeneratedBy : String
  hasCandidate : List String
  taleStatus : Option String
  deltaTop12 : Option ℚ
  confidenceBand : String
  decisionPolicyId : String
  primaryATU : Option String
  modelPrimaryATU : Option String
  finalATU : Option String
  finalDecisionSource : Option String
  finalExpertNote : Option String
  finalSavedAt : Option String
deriving DecidableEq, Repr

/-- The exported InputTextSnapshot node. -/
structure SnapshotNode where
  id : String
  identifier : String
  wasDerivedFrom : String
  sha256 : Option String
deriving DecidableEq, Repr

/-- The exported HumanReview activity node. -/
structure HitlNode where
  id : String
  startedAtTime : String
  used : List String
  wasAttributedTo : Option String
deriving DecidableEq, Repr

/-- The exported expert agent node. -/
structure AgentNode where
  id : String
  identifier : String
deriving DecidableEq, Repr

/-- The to_jsonld output restricted to the nodes the verified claims
touch (result, input snapshot, candidates, human review); the omitted
run/model/dataset/biblio nodes share the same extracted values. -/
structure JOut where
  tid : String
  ts : String
  result_node : ResultNode
  input_snapshot_node : SnapshotNode
  cand_nodes : List CandNode
  hitl_node : Option HitlNode
  expert_agent_node : Option AgentNode
deriving DecidableEq, Repr

/-- Candidate nodes of to_jsonld: enumerate the first k candidates from
rank 1, mint candidate ids from tale id, timestamp slug and rank, and
point at the normalized tale type. -/
def candNodesGo (tid ts : String) (i : Nat) : List CandOut → List CandNode
  | [] => []
  | c :: rest =>
    { id := rdfIri ["candidate", iriSafe tid, ts, toString i],
      rank := i,
      predictedTaleType := rdfIri ["taleType", "atu", atuNorm (pyStrip c.atu)],
      rawCode := pyStrip c.atu,
      confidenceScore := c.score,
      confidenceBand := band_title (some c.confidence_band) } ::
      candNodesGo tid ts (i + 1) rest

/-- to_jsonld candidate list (candidates[:k], ranks from 1). -/
def candNodes (candidates : List CandOut) (k : Nat) (tid ts : String) :
    List CandNode :=
  candNodesGo tid ts 1 (candidates.take k)

/-- HumanReview activity and expert agent of to_jsonld: present exactly
when a final decision source exists and differs from "model"; attributed
to the expert agent IRI when an agent id is supplied. -/
def hitlOf (final_decision_source : Option String) (run_id : Option String)
    (tid ts created_at final_saved_at result_iri : String)
    (expert_agent_id_raw : Option String) :
    Option HitlNode × Option AgentNode :=
  match final_decision_source with
  | some fds =>
    if fds ≠ "model" then
      let hitl_iri := rdfIri ["run", iriSafe (orStr run_id (tid ++ "_" ++ ts)),
        "hitl"]
      let expert_agent_id := stripOrNone expert_agent_id_raw
      let expert_agent_iri := expert_agent_id.map
        (fun a => rdfIri ["agent", iriSafe a])
      (some { id := hitl_iri,
              startedAtTime := if final_saved_at = "" then created_at
                else final_saved_at,
              used := [result_iri],
              wasAttributedTo := expert_agent_iri },
       expert_agent_iri.map (fun a =>
         { id := a, identifier := (expert_agent_id.getD "") }))
    else (none, none)
  | none => (none, none)

/-- export_jsonld.to_jsonld, restricted to the claim-relevant nodes.  The
now argument stands for the wall-clock fallback taken when the meta
carries no timestamp. -/
def to_jsonld (result : ExportResult) (tale_id : Option String)
    (now : String) : JOut :=
  let rid := pyStrip result.id
  let tid := pyStrip (orStr tale_id (orStr (some rid) "unknown"))
  let meta := result.meta
  let k := match meta.k with
    | some n => if n = 0 then 3 else n
    | none => 3
  let created_at := asZ (some (firstTruthy
    [meta.created_at, meta.inferred_at, meta.generated_at] now))
  let ts := tsSlug created_at
  let run_id := stripOrNone meta.run_id
  let policy_id := pyStrip (orStr meta.decision_policy "high_else")
  let conf_band := band_title meta.confidence_band
  let final_decision_source := stripOrNone meta.final_decision_source
  let final_saved_at := asZ (some (meta.final_saved_at.getD ""))
  let text_sha256 := stripOrNone meta.text_sha256
  let tale_iri := rdfIri ["tale", iriSafe tid]
  let run_iri := orStr (stripOrNone meta.run_uri)
    (rdfIri ["run", iriSafe (orStr run_id (tid ++ "_" ++ ts))])
  let input_iri := orStr (stripOrNone meta.input_text_uri)
    (rdfIri ["text", iriSafe tid])
  let result_iri := orStr (stripOrNone meta.result_uri)
    (rdfIri ["result", iriSafe tid, ts])
  let input_snapshot_iri := rdfIri ["text", iriSafe tid, "snapshot", ts]
  let cands := candNodes result.candidates k tid ts
  let result_node : ResultNode :=
    { id := result_iri,
      identifier := tid,
      forTale := tale_iri,
      wasGeneratedBy := run_iri,
      hasCandidate := cands.map (fun c => c.id),
      taleStatus := meta.tale_status,
      deltaTop12 := meta.delta_top12,
      confidenceBand := conf_band,
      decisionPolicyId := policy_id,
      primaryATU := (optTruthy meta.primary_atu).map
        (fun p => rdfIri ["taleType", "atu", atuNorm p]),
      modelPrimaryATU := (optTruthy meta.model_primary_atu).map
        (fun p => rdfIri ["taleType", "atu", atuNorm p]),
      finalATU := (optTruthy meta.final_atu).map
        (fun p => rdfIri ["taleType", "atu", atuNorm p]),
      finalDecisionSource := final_decision_source,
      finalExpertNote := meta.final_expert_note,
      finalSavedAt := if final_saved_at = "" then none else some final_saved_at }
  let input_snapshot_node : SnapshotNode :=
    { id := input_snapshot_iri,
      identifier := tid ++ "@" ++ ts,
      wasDerivedFrom := input_iri,
      sha256 := text_sha256 }
  let hitlPair := hitlOf final_decision_source run_id tid ts created_at
    final_saved_at result_iri meta.expert_agent_id
  { tid := tid,
    ts := ts,
    result_node := result_node,
    input_snapshot_node := input_snapshot_node,
    cand_nodes := cands,
    hitl_node := hitlPair.1,
    expert_agent_node := hitlPair.2 }

/-- app.py effective-meta construction for export: always record the
model's primary code in model_primary_atu and reset stale expert fields;
under an expert override set the final fields, redirect the primary code,
mark the status for review and attribute the expert agent; otherwise the
model output is the final decision. -/
def applyExpertDecision (meta : ExportMeta) (expert_atu expert_note
    expert_saved_at : String) (useExpert : Bool) : ExportMeta :=
  let model_primary := meta.primary_atu
  let base := { meta with
    model_primary_atu := model_primary,
    expert_agent_id := none }
  if useExpert then
    let final_atu := pyStrip expert_atu
    { base with
      final_decision_source := some "expert",
      final_atu := some final_atu,
      final_expert_note := some (pyStrip expert_note),
      final_saved_at := some (pyStrip expert_saved_at),
      primary_atu := some final_atu,
      tale_status := some "review",
      expert_agent_id := some "expert_1" }
  else
    { base with
      final_decision_source := some "model",
      final_atu := some (pyStrip (orStr model_primary "")),
      final_expert_note := some "",
      final_saved_at := some "" }

/-- A run payload with every field absent (for witnesses). -/
def c4run : RunD := {
    run_id := none,
    tale_id := none,
    model_version := none,
    model_name := none,
    model_sha := none,
    source_version := none,
    created_at := none,
    status := none,
    warnings := [],
    tale_status := none,
    primary_atu := none,
    co_types := [],
    delta_top12 := none,
    confidence_band := none,
    decision_policy := none,
    decision_policy_label := none,
    score1 := none,
    score2 := none,
    task := none,
    text_cols := none,
    trained_at := none,
    note := none,
    dataset_landing_url := none,
    labels_download_url := none,
    decision_policy_download_url := none,
    labelset_id := none,
    typing_source := none }

/-- A meta record carrying only a timestamp and a fixed text hash, for
the snapshot-id counterexample. -/
def c4meta (ca : String) : ExportMeta := {
    task := none,
    text_cols := none,
    model_name := none,
    model_version := none,
    trained_at := none,
    note := none,
    model_sha := none,
    dataset_landing_url := none,
    run_id := none,
    tale_id := none,
    created_at := some ca,
    inferred_at := none,
    generated_at := none,
    status := none,
    warnings := [],
    source_version := none,
    tale_status := none,
    primary_atu := none,
    model_primary_atu := none,
    co_types := [],
    delta_top12 := none,
    confidence_band := none,
    decision_policy := none,
    decision_policy_label := none,
    score1 := none,
    score2 := none,
    confidence_band_raw := none,
    labels_download_url := none,
    decision_policy_download_url := none,
    labelset_id := none,
    run_uri := none,
    model_uri := none,
    input_text_uri := none,
    result_uri := none,
    text_sha256 := some "aaaa",
    final_decision_source := none,
    final_atu := none,
    final_expert_note := none,
    final_saved_at := none,
    expert_agent_id := none,
    k := none,
    typing_source := none }

/-- Claim C4 counterexample: two exports over identical input text (same
tale id, same stored content hash) but different run timestamps yield
different InputTextSnapshot node ids, because the snapshot id is minted
from the tale id and the timestamp slug, not from the content hash. -/
theorem C4_counterexample :
    (to_jsonld ⟨"t1", c4meta "2024-01-01T00:00:00+00:00", []⟩ (some "t1")
        "now").input_snapshot_node.sha256 =
      (to_jsonld ⟨"t1", c4meta "2024-01-02T00:00:00+00:00", []⟩ (some "t1")
        "now").input_snapshot_node.sha256 ∧
    (to_jsonld ⟨"t1", c4meta "2024-01-01T00:00:00+00:00", []⟩ (some "t1")
        "now").input_snapshot_node.id ≠
      (to_jsonld ⟨"t1", c4meta "2024-01-02T00:00:00+00:00", []⟩ (some "t1")
        "now").input_snapshot_node.id := by
  constructor
  · rfl
  · decide

/-- Claim C4 (amended): the input text is never embedded in the export:
build_export_result depends on the text only through its content hash, so
any two texts with equal hashes produce identical export results; and the
InputTextSnapshot node id does not depend on the stored hash at all — it
is a function of the tale id and the run timestamp, so re-runs over
identical text get byte-identical snapshot ids exactly when their
timestamps coincide. -/
theorem C4_theorem :
    (∀ (h : String → String) (run : RunD) (sugg : List SuggestionD)
        (tid t1 t2 : String) (k : Nat), h t1 = h t2 →
      build_export_result h run sugg tid t1 k =
        build_export_result h run sugg tid t2 k) ∧
    (∀ (em : ExportMeta) (sha : Option String) (idv : String)
        (cs : List CandOut) (ta : Option String) (now : String),
      (to_jsonld ⟨idv, { em with text_sha256 := sha }, cs⟩ ta
          now).input_snapshot_node.id =
        (to_jsonld ⟨idv, em, cs⟩ ta now).input_snapshot_node.id) := by
  constructor
  · intro h run sugg tid t1 t2 k hh
    unfold build_export_result
    rw [hh]
  · intro em sha idv cs ta now
    rfl

/-- Witness for C4_theorem: a constant hash function makes the exports of
two different texts identical. -/
theorem C4_witness :
    build_export_result (fun _ => "x") c4run [] "t" "a" 3 =
      build_export_result (fun _ => "x") c4run [] "t" "b" 3 :=
  C4_theorem.1 (fun _ => "x") c4run [] "t" "a" "b" 3 rfl

theorem candNodesGo_ranks (tid ts : String) (i : Nat) (l : List CandOut) :
    (candNodesGo tid ts i l).map (fun c => c.rank) = List.range' i l.length := by
  induction l generalizing i with
  | nil => rfl
  | cons c rest ih =>
    rw [List.length_cons, List.range'_succ]
    simp only [candNodesGo, List.map_cons]
    rw [ih]

/-- Claim C7: the ranks of the exported candidate nodes are exactly the
contiguous range 1..m, where m is the number of emitted candidates (the
first k of the result's ordered candidate list): the equality with
List.range' gives uniqueness, contiguity from 1, and agreement of each
rank with its position in the ordered list. -/
theorem C7_theorem (cands : List CandOut) (k : Nat) (tid ts : String) :
    (candNodes cands k tid ts).map (fun c => c.rank) =
      List.range' 1 (min k cands.length) := by
  unfold candNodes
  rw [candNodesGo_ranks, List.length_take]

/-- With an expert decision source and the fixed expert agent id, the
human-review pair carries the agent attribution, references the result,
and includes the agent node. -/
theorem hitlOf_expert (run_id : Option String)
    (tid ts created_at fsa riri : String) :
    (hitlOf (some "expert") run_id tid ts created_at fsa riri
        (some "expert_1")).1.map (fun hn => hn.wasAttributedTo) =
      some (some (rdfIri ["agent", iriSafe "expert_1"])) ∧
    (hitlOf (some "expert") run_id tid ts created_at fsa riri
        (some "expert_1")).1.map (fun hn => hn.used) = some [riri] ∧
    (hitlOf (some "expert") run_id tid ts created_at fsa riri
        (some "expert_1")).2 ≠ none := by
  refine ⟨rfl, rfl, fun hc => Option.noConfusion hc⟩

/-- Claim C8: under an expert override (nonempty expert code, model
primary present) the exported Result's final fields carry the override
(finalATU and primaryATU point at the override's concept, the decision
source is "expert"), while the model's original primary code is preserved
unchanged in the distinct modelPrimaryATU field — which is identical to
what the no-override export records — and a HumanReview activity node
attributed to the expert agent, using the Result node, is added together
with the agent node. -/
theorem C8_theorem (meta : ExportMeta) (p ea note ts0 idv : String)
    (cs : List CandOut) (ta : Option String) (now : String)
    (hp : meta.primary_atu = some p) (hpne : p ≠ "")
    (hea : pyStrip ea ≠ "") :
    (to_jsonld ⟨idv, applyExpertDecision meta ea note ts0 true, cs⟩ ta
        now).result_node.modelPrimaryATU =
      some (rdfIri ["taleType", "atu", atuNorm p]) ∧
    (to_jsonld ⟨idv, applyExpertDecision meta ea note ts0 true, cs⟩ ta
        now).result_node.finalATU =
      some (rdfIri ["taleType", "atu", atuNorm (pyStrip ea)]) ∧
    (to_jsonld ⟨idv, applyExpertDecision meta ea note ts0 true, cs⟩ ta
        now).result_node.primaryATU =
      some (rdfIri ["taleType", "atu", atuNorm (pyStrip ea)]) ∧
    (to_jsonld ⟨idv, applyExpertDecision meta ea note ts0 true, cs⟩ ta
        now).result_node.finalDecisionSource = some "expert" ∧
    (to_jsonld ⟨idv, applyExpertDecision meta ea note ts0 true, cs⟩ ta
        now).result_node.modelPrimaryATU =
      (to_jsonld ⟨idv, applyExpertDecision meta ea note ts0 false, cs⟩ ta
        now).result_node.modelPrimaryATU ∧
    (to_jsonld ⟨idv, applyExpertDecision meta ea note ts0 true, cs⟩ ta
        now).hitl_node.map (fun hn => hn.wasAttributedTo) =
      some (some (rdfIri ["agent", iriSafe "expert_1"])) ∧
    (to_jsonld ⟨idv, applyExpertDecision meta ea note ts0 true, cs⟩ ta
        now).hitl_node.map (fun hn => hn.used) =
      some [(to_jsonld ⟨idv, applyExpertDecision meta ea note ts0 true, cs⟩ ta
        now).result_node.id] ∧
    (to_jsonld ⟨idv, applyExpertDecision meta ea note ts0 true, cs⟩ ta
        now).expert_agent_node ≠ none := by
  have h1 : (applyExpertDecision meta ea note ts0 true).model_primary_atu =
      some p := by
    simp [applyExpertDecision, hp]
  have h1f : (applyExpertDecision meta ea note ts0 false).model_primary_atu =
      some p := by
    simp [applyExpertDecision, hp]
  have h2 : (applyExpertDecision meta ea note ts0 true).final_atu =
      some (pyStrip ea) := by
    simp [applyExpertDecision]
  have h2p : (applyExpertDecision meta ea note ts0 true).primary_atu =
      some (pyStrip ea) := by
    simp [applyExpertDecision]
  have h3 : (applyExpertDecision meta ea note ts0 true).final_decision_source =
      some "expert" := by
    simp [applyExpertDecision]
  have h4 : (applyExpertDecision meta ea note ts0 true).expert_agent_id =
      some "expert_1" := by
    simp [applyExpertDecision]
  have h5 : stripOrNone (some "expert") = some "expert" := by decide
  refine ⟨?_, ?_, ?_, ?_, ?_, ?_, ?_, ?_⟩
  · show (optTruthy
        (applyExpertDecision meta ea note ts0 true).model_primary_atu).map
        (fun q => rdfIri ["taleType", "atu", atuNorm q]) = _
    rw [h1]
    show (if p = "" then (none : Option String) else some p).map _ = _
    rw [if_neg hpne]
    rfl
  · show (optTruthy
        (applyExpertDecision meta ea note ts0 true).final_atu).map
        (fun q => rdfIri ["taleType", "atu", atuNorm q]) = _
    rw [h2]
    show (if pyStrip ea = "" then (none : Option String)
          else some (pyStrip ea)).map _ = _
    rw [if_neg hea]
    rfl
  · show (optTruthy
        (applyExpertDecision meta ea note ts0 true).primary_atu).map
        (fun q => rdfIri ["taleType", "atu", atuNorm q]) = _
    rw [h2p]
    show (if pyStrip ea = "" then (none : Option String)
          else some (pyStrip ea)).map _ = _
    rw [if_neg hea]
    rfl
  · show stripOrNone
        (applyExpertDecision meta ea note ts0 true).final_decision_source =
      some "expert"
    rw [h3]
    exact h5
  · show (optTruthy
        (applyExpertDecision meta ea note ts0 true).model_primary_atu).map
        (fun q => rdfIri ["taleType", "atu", atuNorm q]) =
      (optTruthy
        (applyExpertDecision meta ea note ts0 false).model_primary_atu).map
        (fun q => rdfIri ["taleType", "atu", atuNorm q])
    rw [h1, h1f]
  · exact rfl
  · exact rfl
  · exact fun hc => Option.noConfusion hc

/-- Witness for C8_theorem: the model proposed 510A, the expert overrides
with 425C. -/
theorem C8_witness :
    (to_jsonld ⟨"t1", applyExpertDecision (c4meta "2024-01-01T00:00:00+00:00")
        "425C" "variant cue" "2024-01-01T01:00:00+00:00" true, []⟩ (some "t1")
        "now").result_node.modelPrimaryATU = none ∨
    (to_jsonld ⟨"t1", applyExpertDecision ({ c4meta "2024-01-01T00:00:00+00:00"
        with primary_atu := some "510A" }) "425C" "variant cue"
        "2024-01-01T01:00:00+00:00" true, []⟩ (some "t1")
        "now").result_node.modelPrimaryATU =
      some (rdfIri ["taleType", "atu", atuNorm "510A"]) :=
  Or.inr (C8_theorem ({ c4meta "2024-01-01T00:00:00+00:00" with
    primary_atu := some "510A" }) "510A" "425C" "variant cue"
    "2024-01-01T01:00:00+00:00" "t1" [] (some "t1") "now" rfl
    (by decide) (by decide)).1

/-- Test for a URIRef node, mirroring isinstance(s, URIRef). -/
def isUriNode : RNode → Bool
  | RNode.uri _ => true
  | _ => false

/-- Deduplication keeping first occurrences, used to model Python set
comprehensions over triples (the counts below are order-independent). -/
def dedupGo (seen : List RNode) : List RNode → List RNode
  | [] => []
  | x :: xs => if x ∈ seen then dedupGo seen xs else x :: dedupGo (x :: seen) xs

def dedupNodes (l : List RNode) : List RNode := dedupGo [] l

/-- kg_quality_log.subjects_of_type: URIRef subjects of rdf:type class_iri. -/
def subjects_of_type (g : List RTriple) (class_iri : String) : List RNode :=
  dedupNodes ((g.filter (fun t =>
    decide (t.2.1 = rdf_type ∧ t.2.2 = RNode.uri class_iri) && isUriNode t.1)).map
    (fun t => t.1))

/-- kg_quality_log.has_any_predicate. -/
def has_any_predicate (g : List RTriple) (s : RNode) (preds : List String) :
    Bool :=
  preds.any (fun p => g.any (fun t => decide (t.1 = s ∧ t.2.1 = p)))

/-- kg_quality_log.objects_iris: URIRef objects of (s, p, _). -/
def objects_iris (g : List RTriple) (s : RNode) (p : String) : List RNode :=
  dedupNodes ((g.filter (fun t =>
    decide (t.1 = s ∧ t.2.1 = p) && isUriNode t.2.2)).map (fun t => t.2.2))

def TALE_SOURCE_PREDS : List String := [dct_source, dct_bibliographicCitation]

def VOL_SOURCE_PREDS : List String := [foaf_page, dct_source, rdfs_seeAlso]

/-- One iteration of the tales_complete_source loop in kg_quality_log.main
(lines 143-154): direct tale-level source counts; otherwise any isPartOf
object carrying a volume-level source predicate counts. -/
def tcsStep (g : List RTriple) (acc : Nat) (t : RNode) : Nat :=
  if has_any_predicate g t TALE_SOURCE_PREDS then acc + 1
  else if (objects_iris g t dct_isPartOf).isEmpty then acc
  else if (objects_iris g t dct_isPartOf).any
      (fun v => has_any_predicate g v VOL_SOURCE_PREDS) then acc + 1
  else acc

/-- kg_quality_log.main tales_complete_source metric. -/
def tales_complete_source (g : List RTriple) : Nat :=
  (subjects_of_type g crm_E33).foldl (tcsStep g) 0

/-- Per-tale characterization of what the code actually counts: a direct
source predicate, or ANY isPartOf parent (typed or not) carrying a
volume-level source predicate. -/
def codeSourceCompleteTale (g : List RTriple) (t : RNode) : Bool :=
  has_any_predicate g t TALE_SOURCE_PREDS ||
  (objects_iris g t dct_isPartOf).any
    (fun v => has_any_predicate g v VOL_SOURCE_PREDS)

/-- Spec-modelled predicate following the claim wording: the derived
branch requires the isPartOf parent to be a VOLUME, that is a node the
analyzer recognises as rdf:type dct:BibliographicResource. -/
def claimSourceCompleteTale (g : List RTriple) (t : RNode) : Bool :=
  has_any_predicate g t TALE_SOURCE_PREDS ||
  (objects_iris g t dct_isPartOf).any (fun v =>
    decide ((v, rdf_type, RNode.uri dct_BibliographicResource) ∈ g) &&
    has_any_predicate g v VOL_SOURCE_PREDS)

/-- Spec-modelled count under the claim reading. -/
def claim_tales_complete_source (g : List RTriple) : Nat :=
  (subjects_of_type g crm_E33).countP (fun t => claimSourceCompleteTale g t)

def c9tale : RNode :=
  RNode.uri "https://github.com/eugeniavd/magic_tagger/rdf/tale/t1"

def c9parent : RNode :=
  RNode.uri "https://github.com/eugeniavd/magic_tagger/rdf/dataset/corpus"

/-- Graph in which the tale's isPartOf parent carries dct:source but is
not typed as a volume. -/
def c9graph : List RTriple :=
  [(c9tale, rdf_type, RNode.uri crm_E33),
   (c9tale, dct_isPartOf, c9parent),
   (c9parent, dct_source, RNode.lit "Archive X" none none)]

/-- Counterexample to claim C9: a tale with no direct source whose only
isPartOf parent carries dct:source but is NOT typed as a volume is counted
source-complete by the analyzer, while the claim's parent-volume rule
counts it incomplete. -/
theorem C9_counterexample :
    tales_complete_source c9graph = 1 ∧
    claim_tales_complete_source c9graph = 0 := by
  decide

theorem tcsStep_eq (g : List RTriple) (acc : Nat) (t : RNode) :
    tcsStep g acc t = acc + (if codeSourceCompleteTale g t then 1 else 0) := by
  unfold tcsStep codeSourceCompleteTale
  cases h1 : has_any_predicate g t TALE_SOURCE_PREDS
  · cases hv : objects_iris g t dct_isPartOf with
    | nil => simp [hv]
    | cons a l =>
      cases h2 : (a :: l).any
          (fun v => has_any_predicate g v VOL_SOURCE_PREDS) <;>
        simp [hv, h2]
  · simp

theorem tcs_fold (g : List RTriple) : ∀ (l : List RNode) (acc : Nat),
    l.foldl (tcsStep g) acc =
      acc + l.countP (fun t => codeSourceCompleteTale g t)
  | [], acc => by simp
  | t :: l, acc => by
    rw [List.foldl_cons, tcs_fold g l, tcsStep_eq, List.countP_cons]
    cases h : codeSourceCompleteTale g t
    · simp [h]
    · simp [h]
      omega

/-- Claim C9 (amended): on every graph, the analyzer counts a tale as
source-complete exactly when it carries a direct source predicate
(dct:source or dct:bibliographicCitation) or ANY of its isPartOf parents
— whether or not that parent is typed as a volume — carries a
volume-level source predicate (foaf:page, dct:source, rdfs:seeAlso): the
loop total equals the count of tales satisfying that per-tale rule. -/
theorem C9_theorem (g : List RTriple) :
    tales_complete_source g =
      (subjects_of_type g crm_E33).countP
        (fun t => codeSourceCompleteTale g t) := by
  unfold tales_complete_source
  rw [tcs_fold]
  exact Nat.zero_add _
